import Mathlib

set_option maxHeartbeats 2000000
set_option maxRecDepth 4000

/-!
Verification development for the c3 semantic-analysis pass
(`src/ppci/lang/c3/typechecker.py`).

The checker mutates AST nodes in place (each expression node carries the
checker-assigned fields `typ` and `lvalue`), appends diagnostics through
`self.error`, keeps a per-module `module_ok` flag, and signals failures by
raising exceptions (`SemanticError` from `scope.py`, plus Python's
`AssertionError` and `NotImplementedError`).  The embedding makes all of
this explicit:

* `ast.Expr` nodes carry `typ : Option ast.Typ` and `lvalue : Option Bool`
  (initially absent, written by the checker); checking returns the updated
  node instead of mutating it.
* the checker runs in the monad `M α = St → Res α`, where `St` holds the
  diagnostics list and the `module_ok` flag and `Res` keeps the state both
  on success and on failure (Python mutations survive a raised exception).
* `Failure` separates `SemanticError` (caught by the statement / function /
  module handlers) from `assertionFailed` / `notImplemented` (which escape
  every `except SemanticError` handler), from `attrError` (reading a field
  the pass never assigned), and from `outOfFuel` (the fuel needed to make
  the Python recursion, which re-checks coercion results, structurally
  terminating in Lean; no real run is modelled by `outOfFuel`).
* external collaborators (`astnodes.py`, `scope.py` and the context object,
  none of which are under `src/`) are modelled from the spec where needed;
  each such definition says so in its doc comment.
-/

namespace ast

mutual
/-- Types of the c3 language, after `astnodes.py`: `BaseType` (scalar, named),
`PointerType`, `StructureType` (named fields), `ArrayType`.
Modelled from the spec: `undefinedType` stands for a type reference that does
not resolve, so that the external `context.check_type` has something to fail
on (`InvalidType`). -/
inductive Typ : Type where
  | baseType (name : String)
  | pointerType (ptype : Typ)
  | structureType (fields : Fields)
  | arrayType (element_type : Typ)
  | undefinedType (name : String)

/-- Named fields of a `StructureType`. -/
inductive Fields : Type where
  | nil
  | cons (name : String) (typ : Typ) (rest : Fields)
end

mutual
/-- Structural type equality (the external `equal_types` compares types
structurally). -/
def Typ.beq : Typ → Typ → Bool
  | .baseType a, .baseType b => a == b
  | .pointerType a, .pointerType b => a.beq b
  | .structureType a, .structureType b => a.beq b
  | .arrayType a, .arrayType b => a.beq b
  | .undefinedType a, .undefinedType b => a == b
  | _, _ => false

def Fields.beq : Fields → Fields → Bool
  | .nil, .nil => true
  | .cons n t r, .cons n' t' r' => n == n' && t.beq t' && r.beq r'
  | _, _ => false
end

instance : BEq Typ := ⟨Typ.beq⟩

/-- Field lookup used by `StructureType.has_field` / `field_type`. -/
def Fields.lookup : Fields → String → Option Typ
  | .nil, _ => none
  | .cons n t r, f => if n == f then some t else r.lookup f

/-- Python value carried by a `Literal` node; the checker only inspects its
dynamic type (`type(expr.val)`), so payloads are kept minimal. -/
inductive LitVal : Type where
  | intVal (n : Int)
  | boolVal (b : Bool)
  | strVal (s : String)
  | floatVal
  | otherVal
deriving DecidableEq, Repr

instance : BEq LitVal := instBEqOfDecidableEq

mutual
/-- Expression node: a kind, a source location, and the two checker-assigned
fields `typ` / `lvalue` (spec section 3: both initially absent). -/
inductive Expr : Type where
  | mk (kind : ExprKind) (loc : Nat) (typ : Option Typ) (lvalue : Option Bool)

/-- Expression kinds of `astnodes.py`, as used by the checker's dispatch. -/
inductive ExprKind : Type where
  | binop (a : Expr) (op : String) (b : Expr)
  | unop (op : String) (a : Expr)
  | identifier (name : String)
  | deref (ptr : Expr)
  | member (base : Expr) (field : String)
  | index (base : Expr) (i : Expr)
  | literal (val : LitVal)
  | typeCast (to_type : Typ) (a : Expr)
  | sizeofE (query_typ : Typ)
  | functionCall (proc : Expr) (args : List Expr)
end

def Expr.kind : Expr → ExprKind
  | .mk k _ _ _ => k

def Expr.loc : Expr → Nat
  | .mk _ l _ _ => l

def Expr.typ : Expr → Option Typ
  | .mk _ _ t _ => t

def Expr.lvalue : Expr → Option Bool
  | .mk _ _ _ v => v

def Expr.setLvalue : Expr → Option Bool → Expr
  | .mk k l t _, v => .mk k l t v

/-- Statements of `astnodes.py`, as dispatched by `check_stmt`. -/
inductive Stmt : Type where
  | compound (statements : List Stmt)
  | empty
  | assignment (lval : Expr) (rval : Expr) (loc : Nat)
  | expressionStmt (ex : Expr)
  | ifStmt (condition : Expr) (truestatement : Stmt) (falsestatement : Stmt)
  | ret (expr : Option Expr) (loc : Nat)
  | whileStmt (condition : Expr) (statement : Stmt)
  | forStmt (init : Stmt) (condition : Expr) (statement : Stmt) (final : Stmt)
  | switch (expression : Expr) (options : List (Option Expr × Stmt)) (loc : Nat)

/-- Signature data of a resolved `ast.Function` symbol, as read by
`check_function_call`: `target_func.package.name`, `target_func.name`,
`target_func.typ.parametertypes`, `target_func.typ.returntype`. -/
structure FuncSig : Type where
  package : String
  name : String
  parametertypes : List Typ
  returntype : Typ

/-- Symbols handed back by the external scope machinery.
Modelled from the spec (section 6): `resolve_symbol` yields a Variable, a
Constant, a Function or a Module. -/
inductive Symbol : Type where
  | var (typ : Typ)
  | const (typ : Typ)
  | func (sig : FuncSig)
  | module (name : String)

/-- Function declaration as consumed by `check_function`: the parameter types
(`param.typ` for each parameter), the declared return type
(`function.typ.returntype`), the types of the inner-scope symbols
(`sym.typ` for `sym in function.inner_scope`), and the optional body. -/
structure Function : Type where
  name : String
  parameters : List Typ
  returntype : Typ
  inner_scope : List Typ
  body : Option Stmt
  loc : Nat

/-- Global variable of a module: its type and the `isLocal` flag asserted
by `check_module` (line 31: `assert not var.isLocal`). -/
structure GlobalVar : Type where
  typ : Typ
  isLocal : Bool

/-- Module as consumed by `check_module`: declared types, global variables
(`module.inner_scope.variables`) and functions. -/
structure Module : Type where
  name : String
  types : List Typ
  vars : List GlobalVar
  functions : List Function

end ast

/-- Render a type for diagnostic messages (Python formats the ast type
objects with `'{}'.format`; their `__str__` lives in the external
`astnodes.py`, so the exact text is a modelling choice). -/
def ast.Typ.fmt : ast.Typ → String
  | .baseType n => n
  | .pointerType p => p.fmt ++ "*"
  | .structureType _ => "struct"
  | .arrayType e => e.fmt ++ "[]"
  | .undefinedType n => n ++ "?"
termination_by structural t => t

/-- Render an expression for diagnostic messages (external `__repr__`). -/
def ast.Expr.fmt (e : ast.Expr) : String :=
  match e.kind with
  | .binop _ op _ => "binop " ++ op
  | .unop op _ => "unop " ++ op
  | .identifier n => n
  | .deref _ => "deref"
  | .member _ f => "member " ++ f
  | .index _ _ => "index"
  | .literal _ => "literal"
  | .typeCast _ _ => "typecast"
  | .sizeofE _ => "sizeof"
  | .functionCall _ _ => "call"

/-- Render a symbol for diagnostic messages (external `__repr__`). -/
def ast.Symbol.fmt : ast.Symbol → String
  | .var t => "var " ++ t.fmt
  | .const t => "const " ++ t.fmt
  | .func sig => "function " ++ sig.name
  | .module n => "module " ++ n

def ast.Typ.isPointer : ast.Typ → Bool
  | .pointerType _ => true
  | _ => false

def ast.Typ.isBase : ast.Typ → Bool
  | .baseType _ => true
  | _ => false

/-- Python truthiness of a possibly-unassigned boolean attribute
(`None` and `False` are both falsy). -/
def truthy : Option Bool → Bool
  | some true => true
  | _ => false

/-- Checker state: the diagnostics sink (`self.diag`) and the per-module
validity flag (`self.module_ok`). -/
structure St : Type where
  diags : List (String × Option Nat)
  moduleOk : Bool
deriving DecidableEq, Repr

/-- Failure modes of a checker call: `semantic` is `SemanticError` (the only
exception the checker ever catches); `assertionFailed` is a failing Python
`assert`; `notImplemented` is `NotImplementedError`; `attrError` stands for
reading a checker-assigned field that was never assigned; `outOfFuel` is the
Lean-side fuel exhaustion (no real run). -/
inductive Failure : Type where
  | semantic (msg : String) (loc : Option Nat)
  | assertionFailed
  | notImplemented
  | attrError
  | outOfFuel
deriving DecidableEq, Repr

/-- Result of a checker call: Python keeps the mutated state (diagnostics
already emitted, flags already cleared) when an exception is raised, so the
state is carried on both constructors. -/
inductive Res (α : Type) : Type where
  | ok (a : α) (s : St)
  | err (e : Failure) (s : St)
deriving Repr

/-- The checker monad: state plus exceptions that preserve the state. -/
def M (α : Type) : Type := St → Res α

def M.pure (a : α) : M α := fun s => .ok a s

def M.bind (x : M α) (f : α → M β) : M β := fun s =>
  match x s with
  | .ok a s' => f a s'
  | .err e s' => .err e s'

instance : Monad M where
  pure := M.pure
  bind := M.bind

def M.throw (e : Failure) : M α := fun s => .err e s

/-- Python's `except SemanticError as ex: ...`: only semantic errors are
handled, every other failure keeps propagating. -/
def M.tryCatchSem (x : M α) (handle : String → Option Nat → M α) : M α := fun s =>
  match x s with
  | .err (.semantic msg loc) s' => handle msg loc s'
  | r => r

theorem M.bind_apply (x : M α) (f : α → M β) (s : St) :
    (x >>= f) s = match x s with
      | .ok a s' => f a s'
      | .err e s' => Res.err e s' := rfl

theorem M.pure_apply (a : α) (s : St) : (Pure.pure a : M α) s = .ok a s := rfl

/-- Read the checker-assigned `typ` field; reading it before the pass has
assigned it is a Python-level crash, not a `SemanticError`. -/
def ast.Expr.getTypM (e : ast.Expr) : M ast.Typ :=
  match e.typ with
  | some t => M.pure t
  | none => M.throw .attrError

/-- Compilation context handed to the checker: the modules of the unit and
the symbol table used by `resolve_symbol`.
Modelled from the spec (section 6): the scope subsystem is external. -/
structure Ctx : Type where
  modules : List ast.Module
  symbols : List (String × ast.Symbol)

/-- Modelled from the spec: `get_type` canonicalizes a type reference; the
model has no type aliases, so canonicalization is the identity. -/
def Ctx.get_type (_ : Ctx) (t : ast.Typ) : ast.Typ := t

/-- Modelled from the spec: `equal_types` is structural type equality. -/
def Ctx.equal_types (_ : Ctx) (a b : ast.Typ) : Bool := a == b

/-- Modelled from the spec (section 3): a "simple type" is a `BaseType` or a
`PointerType`; structures and arrays are not. -/
def Ctx.is_simple_type (_ : Ctx) (t : ast.Typ) : Bool :=
  match t with
  | .baseType _ => true
  | .pointerType _ => true
  | _ => false

/-- Modelled from the spec: a type is well-formed unless it contains an
unresolved reference (`check_type` fails with `InvalidType` on it). -/
def ast.Typ.well_formed : ast.Typ → Bool
  | .baseType _ => true
  | .pointerType p => p.well_formed
  | .structureType _ => true
  | .arrayType e => e.well_formed
  | .undefinedType _ => false

/-- Modelled from the spec: numeric rank used by `get_common_type`'s
promotion rule. -/
def numeric_rank : ast.Typ → Option Nat
  | .baseType "byte" => some 1
  | .baseType "int" => some 2
  | .baseType "float" => some 3
  | .baseType "double" => some 4
  | _ => none

namespace TypeChecker

/-- `TypeChecker.error` (lines 483-486): emit the diagnostic and clear the
module validity flag; control flow is not interrupted. -/
def error (msg : String) (loc : Option Nat) : M Unit := fun s =>
  .ok () { diags := s.diags ++ [(msg, loc)], moduleOk := false }

/-- `self.module_ok = True` at the start of `check_module` (line 22). -/
def set_module_ok : M Unit := fun s => .ok () { s with moduleOk := true }

/-- Read `self.module_ok` (line 44). -/
def get_module_ok : M Bool := fun s => .ok s.moduleOk s

/-- `TypeChecker.check_type` (lines 47-48) delegates to the external
`context.check_type`.  Modelled from the spec: fails with `InvalidType`
when the type is ill-formed. -/
def check_type (_ctx : Ctx) (t : ast.Typ) : M Unit :=
  if t.well_formed then M.pure () else
    M.throw (.semantic ("Invalid type " ++ t.fmt) none)

/-- Modelled from the spec: `resolve_symbol(identifier)` yields the symbol
or fails with `UndefinedSymbol`; a module-qualified member (`mod.field`) is
resolved through the dotted name in the same table. -/
def resolve_symbol (ctx : Ctx) (e : ast.Expr) : M ast.Symbol :=
  match e.kind with
  | .identifier n =>
    match ctx.symbols.lookup n with
    | some sym => M.pure sym
    | none => M.throw (.semantic ("Undefined symbol " ++ n) (some e.loc))
  | .member base field =>
    match base.kind with
    | .identifier m =>
      match ctx.symbols.lookup (m ++ "." ++ field) with
      | some sym => M.pure sym
      | none => M.throw (.semantic ("Undefined symbol " ++ field) (some e.loc))
    | _ => M.throw (.semantic "Cannot resolve symbol" (some e.loc))
  | _ => M.throw (.semantic "Cannot resolve symbol" (some e.loc))

/-- Modelled from the spec: `get_common_type` picks the promoted numeric
type of two checked operands, failing when none exists. -/
def get_common_type (ctx : Ctx) (a b : ast.Expr) : M ast.Typ := do
  let ta ← a.getTypM
  let tb ← b.getTypM
  if ctx.equal_types ta tb then M.pure ta
  else
    match numeric_rank ta, numeric_rank tb with
    | some ra, some rb => M.pure (if rb ≤ ra then ta else tb)
    | _, _ =>
      M.throw (.semantic ("No common type for " ++ ta.fmt ++ " and " ++ tb.fmt)
        (some a.loc))

/-- Modelled from the spec (section 4.4 classifier): `ast.Binop.cond_ops`. -/
def binop_cond_ops : List String := ["==", "!=", "<", ">", "<=", ">=", "and", "or"]

/-- Modelled from the spec (section 4.4 classifier): `ast.Unop.cond_ops`. -/
def unop_cond_ops : List String := ["not"]

/-- `TypeChecker.is_bool` (lines 488-495). -/
def is_bool (e : ast.Expr) : Bool :=
  match e.kind with
  | .binop _ op _ => binop_cond_ops.contains op
  | .unop op _ => unop_cond_ops.contains op
  | _ => false

/-- `TypeChecker.check_identifier` (lines 311-325). -/
def check_identifier (ctx : Ctx) (e : ast.Expr) : M ast.Expr := do
  let target ← resolve_symbol ctx e
  match target with
  | .var t => M.pure (.mk e.kind e.loc (some t) (some true))
  | .const t => M.pure (.mk e.kind e.loc (some t) (some false))
  | other =>
    M.throw (.semantic ("Cannot use " ++ other.fmt ++ " in expression") (some e.loc))

/-- `TypeChecker.check_literal_expr` (lines 389-400): `lvalue` is cleared,
the type comes from the native kind of the literal value. -/
def check_literal_expr (ctx : Ctx) (e : ast.Expr) : M ast.Expr :=
  match e.kind with
  | .literal v =>
    match v with
    | .intVal _ => M.pure (.mk e.kind e.loc (some (ctx.get_type (.baseType "int"))) (some false))
    | .floatVal => M.pure (.mk e.kind e.loc (some (ctx.get_type (.baseType "double"))) (some false))
    | .boolVal _ => M.pure (.mk e.kind e.loc (some (ctx.get_type (.baseType "bool"))) (some false))
    | .strVal _ => M.pure (.mk e.kind e.loc (some (ctx.get_type (.baseType "string"))) (some false))
    | .otherVal => M.throw (.semantic "Unknown literal type" (some e.loc))
  | _ => M.throw .notImplemented

/-- `TypeChecker.check_sizeof` (lines 250-257). -/
def check_sizeof (ctx : Ctx) (e : ast.Expr) : M ast.Expr :=
  match e.kind with
  | .sizeofE q => do
    let _ ← check_type ctx q
    M.pure (.mk e.kind e.loc (some (ctx.get_type (.baseType "int"))) (some false))
  | _ => M.throw .notImplemented

/-- Rvalue materialization, the tail of `TypeChecker.check_expr`
(lines 228-241): when an rvalue was requested and the checked node is an
lvalue, its type must be a pointer or scalar base type (else
`Cannot deref`), and `is_lvalue` is flipped to `false`. -/
def rvalue_materialize (ctx : Ctx) (rvalue : Bool) (e1 : ast.Expr) : M ast.Expr :=
  if rvalue && truthy e1.lvalue then do
    let t ← e1.getTypM
    let val_typ := ctx.get_type t
    if val_typ.isPointer || val_typ.isBase then
      M.pure (e1.setLvalue (some false))
    else
      M.throw (.semantic ("Cannot deref " ++ val_typ.fmt) (some e1.loc))
  else
    M.pure e1

end TypeChecker

namespace TypeChecker

/-- Type loop of `check_module` (lines 26-27) and inner-scope loop of
`check_function` (lines 65-66). -/
def check_type_list (ctx : Ctx) : List ast.Typ → M Unit
  | [] => M.pure ()
  | t :: rest => do
    check_type ctx t
    check_type_list ctx rest

/-- Global-variable loop of `check_module` (lines 29-32): assert the
variable is not local, then check its type. -/
def check_globals (ctx : Ctx) : List ast.GlobalVar → M Unit
  | [] => M.pure ()
  | v :: rest => do
    if v.isLocal then M.throw .assertionFailed else M.pure ()
    check_type ctx v.typ
    check_globals ctx rest

/-- Top-level section of `check_module` (lines 24-32, the body of the
`try`): check the declared types, then the global variables. -/
def check_module_top (ctx : Ctx) (m : ast.Module) : M Unit := do
  check_type_list ctx m.types
  check_globals ctx m.vars

/-- Parameter loop of `check_function` (lines 52-59): check each parameter
type and require it to be simple. -/
def check_parameters (ctx : Ctx) (loc : Nat) : List ast.Typ → M Unit
  | [] => M.pure ()
  | t :: rest => do
    check_type ctx t
    if ¬ ctx.is_simple_type t then
      M.throw (.semantic "Function parameters can only be simple types" (some loc))
    else check_parameters ctx loc rest

/-- Tail of `check_condition` (lines 195-197): the checked condition must
be boolean, otherwise a diagnostic is emitted (not raised). -/
def condition_bool_check (ctx : Ctx) (e : ast.Expr) : M ast.Expr := do
  let t ← e.getTypM
  if ¬ ctx.equal_types t (.baseType "bool") then do
    error "Condition must be boolean" (some e.loc)
    M.pure e
  else M.pure e

mutual

/-- `TypeChecker.check` (lines 14-17): run `check_module` over every module;
nothing is caught here, a raising module aborts the loop. -/
def check_modules (ctx : Ctx) (fuel : Nat) (ms : List ast.Module) : M Unit :=
  match fuel, ms with
  | 0, _ => M.throw .outOfFuel
  | _ + 1, [] => M.pure ()
  | fuel + 1, m :: rest => do
    check_module ctx fuel m
    check_modules ctx fuel rest

/-- `TypeChecker.check_module` (lines 19-45): reset `module_ok`, run the
top-level checks under an `except SemanticError` handler, run every
function under its own handler, then raise the aggregate error if the
module is invalid. -/
def check_module (ctx : Ctx) (fuel : Nat) (m : ast.Module) : M Unit :=
  match fuel with
  | 0 => M.throw .outOfFuel
  | fuel + 1 => do
    set_module_ok
    M.tryCatchSem (check_module_top ctx m) (fun msg loc => error msg loc)
    check_functions ctx fuel m.functions
    let ok ← get_module_ok
    if ok then M.pure () else M.throw (.semantic "Errors occurred" none)

/-- Function loop of `check_module` (lines 36-42): each function is checked
under its own `except SemanticError` handler, so checking continues with
the next function. -/
def check_functions (ctx : Ctx) (fuel : Nat) (fns : List ast.Function) : M Unit :=
  match fuel, fns with
  | 0, _ => M.throw .outOfFuel
  | _ + 1, [] => M.pure ()
  | fuel + 1, fn :: rest => do
    M.tryCatchSem (check_function ctx fuel fn) (fun msg loc => error msg loc)
    check_functions ctx fuel rest

/-- `TypeChecker.check_function` (lines 50-69). -/
def check_function (ctx : Ctx) (fuel : Nat) (fn : ast.Function) : M Unit :=
  match fuel with
  | 0 => M.throw .outOfFuel
  | fuel + 1 => do
    check_parameters ctx fn.loc fn.parameters
    if ¬ ctx.is_simple_type fn.returntype then
      M.throw (.semantic "Functions can only return simple types" (some fn.loc))
    else do
      check_type_list ctx fn.inner_scope
      match fn.body with
      | some body => check_stmt ctx fuel body
      | none => M.pure ()

/-- `TypeChecker.check_stmt` (lines 71-104): dispatch on the statement
kind; `SemanticError` is caught at this boundary and turned into a
diagnostic, every other failure propagates. -/
def check_stmt (ctx : Ctx) (fuel : Nat) (code : ast.Stmt) : M Unit :=
  match fuel with
  | 0 => M.throw .outOfFuel
  | fuel + 1 =>
    M.tryCatchSem
      (match code with
       | .compound statements => check_stmt_list ctx fuel statements
       | .empty => M.pure ()
       | .assignment _ _ _ => check_assignment_stmt ctx fuel code
       | .expressionStmt ex =>
         match ex.kind with
         | .functionCall _ _ => do
           let e' ← check_function_call ctx fuel ex
           let t ← e'.getTypM
           if ¬ ctx.equal_types (.baseType "void") t then
             M.throw (.semantic "Can only call void functions" (some e'.loc))
           else M.pure ()
         | _ => M.throw (.semantic "Not a call expression" (some ex.loc))
       | .ifStmt _ _ _ => check_if_stmt ctx fuel code
       | .ret _ _ => check_return_stmt ctx fuel code
       | .whileStmt _ _ => check_while ctx fuel code
       | .forStmt _ _ _ _ => check_for_stmt ctx fuel code
       | .switch _ _ _ => check_switch_stmt ctx fuel code)
      (fun msg loc => error msg loc)

/-- Child loop of a `Compound` statement (lines 75-77). -/
def check_stmt_list (ctx : Ctx) (fuel : Nat) (stmts : List ast.Stmt) : M Unit :=
  match fuel, stmts with
  | 0, _ => M.throw .outOfFuel
  | _ + 1, [] => M.pure ()
  | fuel + 1, st :: rest => do
    check_stmt ctx fuel st
    check_stmt_list ctx fuel rest

/-- `TypeChecker.check_if_stmt` (lines 106-110). -/
def check_if_stmt (ctx : Ctx) (fuel : Nat) (code : ast.Stmt) : M Unit :=
  match fuel with
  | 0 => M.throw .outOfFuel
  | fuel + 1 =>
    match code with
    | .ifStmt condition truestatement falsestatement => do
      let _ ← check_condition ctx fuel condition
      check_stmt ctx fuel truestatement
      check_stmt ctx fuel falsestatement
    | _ => M.throw .notImplemented

/-- `TypeChecker.check_while` (lines 112-115). -/
def check_while (ctx : Ctx) (fuel : Nat) (code : ast.Stmt) : M Unit :=
  match fuel with
  | 0 => M.throw .outOfFuel
  | fuel + 1 =>
    match code with
    | .whileStmt condition statement => do
      let _ ← check_condition ctx fuel condition
      check_stmt ctx fuel statement
    | _ => M.throw .notImplemented

/-- `TypeChecker.check_for_stmt` (lines 117-122). -/
def check_for_stmt (ctx : Ctx) (fuel : Nat) (code : ast.Stmt) : M Unit :=
  match fuel with
  | 0 => M.throw .outOfFuel
  | fuel + 1 =>
    match code with
    | .forStmt init condition statement final => do
      check_stmt ctx fuel init
      let _ ← check_condition ctx fuel condition
      check_stmt ctx fuel statement
      check_stmt ctx fuel final
    | _ => M.throw .notImplemented

/-- `TypeChecker.check_switch_stmt` (lines 124-143). -/
def check_switch_stmt (ctx : Ctx) (fuel : Nat) (code : ast.Stmt) : M Unit :=
  match fuel with
  | 0 => M.throw .outOfFuel
  | fuel + 1 =>
    match code with
    | .switch expression options loc => do
      let e' ← check_expr ctx fuel expression true
      let t ← e'.getTypM
      if ¬ ctx.equal_types (.baseType "int") t then
        M.throw (.semantic "Switch condition must be integer" (some e'.loc))
      else do
        let default_block ← check_switch_options ctx fuel options false
        if default_block then M.pure ()
        else M.throw (.semantic "No default case specified in switch-case" (some loc))
    | _ => M.throw .notImplemented

/-- Case loop of `check_switch_stmt` (lines 131-139): check every case
body; a case with an absent value is the default case. -/
def check_switch_options (ctx : Ctx) (fuel : Nat)
    (opts : List (Option ast.Expr × ast.Stmt)) (default_block : Bool) : M Bool :=
  match fuel, opts with
  | 0, _ => M.throw .outOfFuel
  | _ + 1, [] => M.pure default_block
  | fuel + 1, (option_val, option_code) :: rest => do
    check_stmt ctx fuel option_code
    match option_val with
    | none => check_switch_options ctx fuel rest true
    | some v => do
      let _ ← check_expr ctx fuel v false
      check_switch_options ctx fuel rest default_block

/-- `TypeChecker.check_return_stmt` (lines 145-148): only the returned
expression is checked (as an rvalue); the declared return type of the
enclosing function is not consulted. -/
def check_return_stmt (ctx : Ctx) (fuel : Nat) (code : ast.Stmt) : M Unit :=
  match fuel with
  | 0 => M.throw .outOfFuel
  | fuel + 1 =>
    match code with
    | .ret (some e) _ => do
      let _ ← check_expr ctx fuel e true
      M.pure ()
    | .ret none _ => M.pure ()
    | _ => M.throw .notImplemented

/-- `TypeChecker.check_assignment_stmt` (lines 150-168). -/
def check_assignment_stmt (ctx : Ctx) (fuel : Nat) (code : ast.Stmt) : M Unit :=
  match fuel with
  | 0 => M.throw .outOfFuel
  | fuel + 1 =>
    match code with
    | .assignment lval rval loc => do
      let lv ← check_expr ctx fuel lval false
      let t ← lv.getTypM
      if ¬ ctx.is_simple_type t then
        M.throw (.semantic ("Cannot assign to complex type " ++ t.fmt) (some loc))
      else if ¬ truthy lv.lvalue then
        M.throw (.semantic ("No valid lvalue " ++ lv.fmt) (some lv.loc))
      else do
        let rv ← check_expr ctx fuel rval true
        let _ ← do_coerce ctx fuel rv t
        M.pure ()
    | _ => M.throw .notImplemented

/-- `TypeChecker.check_condition` (lines 170-197). -/
def check_condition (ctx : Ctx) (fuel : Nat) (e : ast.Expr) : M ast.Expr :=
  match fuel with
  | 0 => M.throw .outOfFuel
  | fuel + 1 =>
    match e.kind with
    | .binop a op b =>
      if op == "and" || op == "or" then do
        let a' ← check_condition ctx fuel a
        let b' ← check_condition ctx fuel b
        condition_bool_check ctx
          (.mk (.binop a' op b') e.loc (some (ctx.get_type (.baseType "bool"))) e.lvalue)
      else if ["==", ">", "<", "!=", "<=", ">="].contains op then do
        let a' ← check_expr ctx fuel a true
        let b' ← check_expr ctx fuel b true
        let ta ← a'.getTypM
        let b2 ← do_coerce ctx fuel b' ta
        condition_bool_check ctx
          (.mk (.binop a' op b2) e.loc (some (ctx.get_type (.baseType "bool"))) e.lvalue)
      else M.throw (.semantic ("non-bool: " ++ op) (some e.loc))
    | .literal _ => do
      let e' ← check_expr ctx fuel e false
      condition_bool_check ctx e'
    | .unop op a =>
      if op == "not" then do
        let a' ← check_condition ctx fuel a
        condition_bool_check ctx
          (.mk (.unop op a') e.loc (some (ctx.get_type (.baseType "bool"))) e.lvalue)
      else do
        let e' ← check_expr ctx fuel e true
        condition_bool_check ctx e'
    | _ => do
      let e' ← check_expr ctx fuel e true
      condition_bool_check ctx e'

/-- `TypeChecker.check_expr` (lines 199-241): kind dispatch followed by
rvalue materialization. -/
def check_expr (ctx : Ctx) (fuel : Nat) (e : ast.Expr) (rvalue : Bool) : M ast.Expr :=
  match fuel with
  | 0 => M.throw .outOfFuel
  | fuel + 1 => do
    let e1 ← check_expr_kind ctx fuel e
    rvalue_materialize ctx rvalue e1

/-- Kind dispatch of `check_expr` (lines 202-226): boolean-producing
expressions are routed through `check_bool_expr`, everything else by kind. -/
def check_expr_kind (ctx : Ctx) (fuel : Nat) (e : ast.Expr) : M ast.Expr :=
  match fuel with
  | 0 => M.throw .outOfFuel
  | fuel + 1 =>
    if is_bool e then check_bool_expr ctx fuel e
    else
      match e.kind with
      | .binop _ _ _ => check_binop ctx fuel e
      | .unop _ _ => check_unop ctx fuel e
      | .identifier _ => check_identifier ctx e
      | .deref _ => check_dereference ctx fuel e
      | .member _ _ => check_member_expr ctx fuel e
      | .index _ _ => check_index_expr ctx fuel e
      | .literal _ => check_literal_expr ctx e
      | .typeCast _ _ => check_type_cast ctx fuel e
      | .sizeofE _ => check_sizeof ctx e
      | .functionCall _ _ => check_function_call ctx fuel e

/-- `TypeChecker.check_bool_expr` (lines 243-248). -/
def check_bool_expr (ctx : Ctx) (fuel : Nat) (e : ast.Expr) : M ast.Expr :=
  match fuel with
  | 0 => M.throw .outOfFuel
  | fuel + 1 => do
    let e' ← check_condition ctx fuel e
    M.pure (e'.setLvalue (some false))

/-- `TypeChecker.check_dereference` (lines 259-272). -/
def check_dereference (ctx : Ctx) (fuel : Nat) (e : ast.Expr) : M ast.Expr :=
  match fuel with
  | 0 => M.throw .outOfFuel
  | fuel + 1 =>
    match e.kind with
    | .deref ptr => do
      let p' ← check_expr ctx fuel ptr true
      let tp ← p'.getTypM
      let ptr_typ := ctx.get_type tp
      match ptr_typ with
      | .pointerType ptype => M.pure (.mk (.deref p') e.loc (some ptype) (some true))
      | _ => M.throw (.semantic ("Cannot deref " ++ ptr_typ.fmt) (some e.loc))
    | _ => M.throw .assertionFailed

/-- `TypeChecker.check_unop` (lines 274-287). -/
def check_unop (ctx : Ctx) (fuel : Nat) (e : ast.Expr) : M ast.Expr :=
  match fuel with
  | 0 => M.throw .outOfFuel
  | fuel + 1 =>
    match e.kind with
    | .unop op a =>
      if op == "&" then do
        let a' ← check_expr ctx fuel a false
        if ¬ truthy a'.lvalue then
          M.throw (.semantic "No valid lvalue" (some a'.loc))
        else do
          let ta ← a'.getTypM
          M.pure (.mk (.unop op a') e.loc (some (.pointerType ta)) (some false))
      else if op == "+" || op == "-" then do
        let a' ← check_expr ctx fuel a true
        M.pure (.mk (.unop op a') e.loc a'.typ (some false))
      else M.throw .notImplemented
    | _ => M.throw .notImplemented

/-- `TypeChecker.check_binop` (lines 289-309). -/
def check_binop (ctx : Ctx) (fuel : Nat) (e : ast.Expr) : M ast.Expr :=
  match fuel with
  | 0 => M.throw .outOfFuel
  | fuel + 1 =>
    match e.kind with
    | .binop a op b =>
      if binop_cond_ops.contains op then M.throw .assertionFailed
      else do
        let a' ← check_expr ctx fuel a true
        let b' ← check_expr ctx fuel b true
        let common_type ← get_common_type ctx a' b'
        if ¬ (["+", "-", "*", "/", "%", "<<", ">>", "|", "&", "^"].contains op) then
          M.throw (.semantic ("Cannot use " ++ op) none)
        else do
          let a2 ← do_coerce ctx fuel a' common_type
          let b2 ← do_coerce ctx fuel b' common_type
          M.pure (.mk (.binop a2 op b2) e.loc (some common_type) (some false))
    | _ => M.throw .assertionFailed

/-- `TypeChecker.check_member_expr` (lines 327-358). -/
def check_member_expr (ctx : Ctx) (fuel : Nat) (e : ast.Expr) : M ast.Expr :=
  match fuel with
  | 0 => M.throw .outOfFuel
  | fuel + 1 =>
    match e.kind with
    | .member base field => do
      let mr ← is_module_ref ctx fuel e
      if mr then do
        let target ← resolve_symbol ctx e
        match target with
        | .var t => M.pure (.mk (.member base field) e.loc (some t) (some true))
        | _ => M.throw .notImplemented
      else do
        let b' ← check_expr ctx fuel base false
        let tb ← b'.getTypM
        let basetype := ctx.get_type tb
        match basetype with
        | .structureType fields => do
          let _ ← check_type ctx basetype
          match fields.lookup field with
          | some field_typ =>
            if truthy b'.lvalue then
              M.pure (.mk (.member b' field) e.loc (some field_typ) b'.lvalue)
            else M.throw .assertionFailed
          | none =>
            M.throw (.semantic (basetype.fmt ++ " does not contain field " ++ field)
              (some e.loc))
        | _ =>
          M.throw (.semantic ("Cannot select " ++ field ++ " of non-structure type "
            ++ basetype.fmt) (some e.loc))
    | _ => M.throw .notImplemented

/-- `TypeChecker.is_module_ref` (lines 360-368): strip `Member` layers and
ask whether the innermost base identifier resolves to a module. -/
def is_module_ref (ctx : Ctx) (fuel : Nat) (e : ast.Expr) : M Bool :=
  match fuel with
  | 0 => M.throw .outOfFuel
  | fuel + 1 =>
    match e.kind with
    | .member base _ =>
      match base.kind with
      | .identifier _ => do
        let target ← resolve_symbol ctx base
        match target with
        | .module _ => M.pure true
        | _ => M.pure false
      | _ => is_module_ref ctx fuel base
    | _ => M.pure false

/-- `TypeChecker.check_index_expr` (lines 370-387). -/
def check_index_expr (ctx : Ctx) (fuel : Nat) (e : ast.Expr) : M ast.Expr :=
  match fuel with
  | 0 => M.throw .outOfFuel
  | fuel + 1 =>
    match e.kind with
    | .index base i => do
      let b' ← check_expr ctx fuel base false
      let i' ← check_expr ctx fuel i true
      let tb ← b'.getTypM
      let base_typ := ctx.get_type tb
      match base_typ with
      | .arrayType element_type => do
        let i2 ← do_coerce ctx fuel i' (.baseType "int")
        if truthy b'.lvalue then
          M.pure (.mk (.index b' i2) e.loc (some element_type) (some true))
        else M.throw .assertionFailed
      | _ =>
        M.throw (.semantic ("Cannot index non-array type " ++ base_typ.fmt)
          (some b'.loc))
    | _ => M.throw .notImplemented

/-- `TypeChecker.check_type_cast` (lines 402-408). -/
def check_type_cast (ctx : Ctx) (fuel : Nat) (e : ast.Expr) : M ast.Expr :=
  match fuel with
  | 0 => M.throw .outOfFuel
  | fuel + 1 =>
    match e.kind with
    | .typeCast to_type a => do
      let a' ← check_expr ctx fuel a true
      M.pure (.mk (.typeCast to_type a') e.loc (some to_type) (some false))
    | _ => M.throw .notImplemented

/-- `TypeChecker.check_function_call` (lines 410-442). -/
def check_function_call (ctx : Ctx) (fuel : Nat) (e : ast.Expr) : M ast.Expr :=
  match fuel with
  | 0 => M.throw .outOfFuel
  | fuel + 1 =>
    match e.kind with
    | .functionCall proc args => do
      let target_func ← resolve_symbol ctx proc
      match target_func with
      | .func sig =>
        if args.length != sig.parametertypes.length then
          M.throw (.semantic
            (sig.package ++ "_" ++ sig.name ++ " requires "
              ++ toString sig.parametertypes.length ++ " arguments, "
              ++ toString args.length ++ " given") (some e.loc))
        else do
          let new_args ← check_call_args ctx fuel args sig.parametertypes
          if ¬ ctx.is_simple_type sig.returntype then
            M.throw (.semantic "Return value can only be a simple type" (some e.loc))
          else
            M.pure (.mk (.functionCall proc new_args) e.loc (some sig.returntype)
              (some false))
      | _ =>
        M.throw (.semantic ("cannot call " ++ target_func.fmt) (some e.loc))
    | _ => M.throw .notImplemented

/-- Argument loop of `check_function_call` (lines 427-432): check each
argument as an rvalue and coerce it to its positional parameter type. -/
def check_call_args (ctx : Ctx) (fuel : Nat)
    (args : List ast.Expr) (ptypes : List ast.Typ) : M (List ast.Expr) :=
  match fuel, args, ptypes with
  | 0, _, _ => M.throw .outOfFuel
  | fuel + 1, arg_expr :: args', arg_typ :: ptypes' => do
    let a' ← check_expr ctx fuel arg_expr true
    let a2 ← do_coerce ctx fuel a' arg_typ
    let rest ← check_call_args ctx fuel args' ptypes'
    M.pure (a2 :: rest)
  | _ + 1, _, _ => M.pure []

/-- `TypeChecker.do_coerce` (lines 444-481): no cast when the types are
equal; otherwise the fixed directional rule table wraps the expression in
a synthetic `TypeCast`, or the coercion fails; the resulting expression is
re-checked (generic, non-rvalue) at the end. -/
def do_coerce (ctx : Ctx) (fuel : Nat) (expr : ast.Expr) (typ : ast.Typ) : M ast.Expr :=
  match fuel with
  | 0 => M.throw .outOfFuel
  | fuel + 1 => do
    let expr_typ ← expr.getTypM
    let expr2 ←
      if ctx.equal_types expr_typ typ then
        M.pure expr
      else if expr_typ.isPointer && typ.isPointer then
        M.pure (.mk (.typeCast typ expr) expr.loc none none)
      else if ctx.equal_types (.baseType "int") expr_typ && typ.isPointer then
        M.pure (.mk (.typeCast typ expr) expr.loc none none)
      else if ctx.equal_types (.baseType "int") expr_typ
          && ctx.equal_types (.baseType "byte") typ then
        M.pure (.mk (.typeCast typ expr) expr.loc none none)
      else if ctx.equal_types (.baseType "int") expr_typ
          && ctx.equal_types (.baseType "double") typ then
        M.pure (.mk (.typeCast typ expr) expr.loc none none)
      else if ctx.equal_types (.baseType "double") expr_typ
          && ctx.equal_types (.baseType "float") typ then
        M.pure (.mk (.typeCast typ expr) expr.loc none none)
      else if ctx.equal_types (.baseType "float") expr_typ
          && ctx.equal_types (.baseType "double") typ then
        M.pure (.mk (.typeCast typ expr) expr.loc none none)
      else if ctx.equal_types (.baseType "byte") expr_typ
          && ctx.equal_types (.baseType "int") typ then
        M.pure (.mk (.typeCast typ expr) expr.loc none none)
      else
        M.throw (.semantic ("Cannot use '" ++ expr_typ.fmt ++ "' as '" ++ typ.fmt ++ "'")
          (some expr.loc))
    check_expr ctx fuel expr2 false

end

/-- Entry point: `check()` over the modules of the compilation context. -/
def check (ctx : Ctx) (fuel : Nat) : M Unit := check_modules ctx fuel ctx.modules

end TypeChecker

/-! Helper lemmas and concrete fixtures shared by the claim theorems. -/

mutual
theorem ast.Typ.beq_refl : (t : ast.Typ) → t.beq t = true
  | .baseType _ => by simp [ast.Typ.beq]
  | .pointerType p => by simp [ast.Typ.beq, ast.Typ.beq_refl p]
  | .structureType f => by simp [ast.Typ.beq, ast.Fields.beq_refl_fields f]
  | .arrayType e => by simp [ast.Typ.beq, ast.Typ.beq_refl e]
  | .undefinedType _ => by simp [ast.Typ.beq]

theorem ast.Fields.beq_refl_fields : (f : ast.Fields) → f.beq f = true
  | .nil => rfl
  | .cons _ t r => by simp [ast.Fields.beq, ast.Typ.beq_refl t, ast.Fields.beq_refl_fields r]
end

theorem Ctx.equal_types_refl (ctx : Ctx) (t : ast.Typ) : ctx.equal_types t t = true := by
  simp [Ctx.equal_types, BEq.beq, ast.Typ.beq_refl t]

theorem ast.Expr.setLvalue_typ (e : ast.Expr) (v : Option Bool) :
    (e.setLvalue v).typ = e.typ := by
  cases e; rfl

theorem ast.Expr.setLvalue_lvalue (e : ast.Expr) (v : Option Bool) :
    (e.setLvalue v).lvalue = v := by
  cases e; rfl

namespace TypeChecker

theorem check_stmt_empty (ctx : Ctx) (fuel : Nat) (s : St) :
    check_stmt ctx (fuel + 1) .empty s = .ok () s := rfl

theorem check_expr_int_literal (ctx : Ctx) (fuel : Nat) (n : Int) (l : Nat)
    (rv : Bool) (s : St) :
    check_expr ctx (fuel + 2) (.mk (.literal (.intVal n)) l none none) rv s
      = .ok (.mk (.literal (.intVal n)) l (some (.baseType "int")) (some false)) s := by
  cases rv <;> rfl

end TypeChecker

/-- Projection used to state counterexamples: the left operand of a checked
binop result. -/
def binop_left : Res ast.Expr → Option ast.Expr
  | .ok (.mk (.binop a _ _) _ _ _) _ => some a
  | _ => none

/-- Initial checker state: no diagnostics, module flag set. -/
def st0 : St := ⟨[], true⟩

def intT : ast.Typ := .baseType "int"

def structT : ast.Typ := .structureType (.cons "f" intT .nil)

def arrT : ast.Typ := .arrayType intT

/-- Fixture context: integer variables `x`/`y`, constants `c` (structure) and
`k` (array), variables `sv` (structure) and `av` (array). -/
def ctx0 : Ctx := ⟨[],
  [("x", .var intT), ("y", .var intT),
   ("c", .const structT), ("k", .const arrT),
   ("sv", .var structT), ("av", .var arrT)]⟩

/-- Fixture module with one undefined global type. -/
def mod1 : ast.Module := ⟨"m1", [], [⟨.undefinedType "T", false⟩], []⟩

/-- Second fixture module, also with an undefined global type. -/
def mod2 : ast.Module := ⟨"m2", [], [⟨.undefinedType "U", false⟩], []⟩

/-- Context whose compilation unit holds the two fixture modules. -/
def ctx1 : Ctx := ⟨[mod1, mod2], []⟩

/-- Fixture function declaring return type `int` whose body returns a string
literal. -/
def fun_ret_str : ast.Function :=
  ⟨"f", [], intT, [], some (.ret (some (.mk (.literal (.strVal "hello")) 5 none none)) 6), 7⟩

/-- Fixture function with a structure-typed parameter (signature error). -/
def fun_bad_param : ast.Function := ⟨"g", [structT], intT, [], none, 8⟩

/-- Fixture function that checks cleanly. -/
def fun_good : ast.Function :=
  ⟨"h", [], intT, [], some (.ret (some (.mk (.literal (.intVal 1)) 9 none none)) 9), 10⟩

namespace TypeChecker

/-- Claim C3: for every module with two or more functions, a semantic error
raised while checking one function is caught at the function boundary
(recorded through `error`, which appends the diagnostic and clears
`module_ok`) and checking proceeds with the remaining functions: the
function loop continues on the tail exactly as if the failing function had
merely logged its diagnostic. -/
theorem c3_function_error_contained (ctx : Ctx) (fuel : Nat) (fn : ast.Function)
    (rest : List ast.Function) (s : St) (msg : String) (loc : Option Nat) (s' : St)
    (h : check_function ctx fuel fn s = .err (.semantic msg loc) s') :
    check_functions ctx (fuel + 1) (fn :: rest) s
      = check_functions ctx fuel rest ⟨s'.diags ++ [(msg, loc)], false⟩ := by
  simp only [check_functions, M.bind_apply, M.tryCatchSem, h, error]

/-- Witness for C3: the structure-parameter function fails semantically, the
diagnostic is recorded, and the loop continues with `fun_good`. -/
theorem c3_function_error_contained_witness :
    check_functions ctx0 10 [fun_bad_param, fun_good] st0
      = check_functions ctx0 9 [fun_good]
          ⟨[("Function parameters can only be simple types", some 8)], false⟩ :=
  c3_function_error_contained ctx0 9 fun_bad_param [fun_good] st0
    "Function parameters can only be simple types" (some 8) st0 rfl

end TypeChecker

theorem M.pure_def {α : Type} (a : α) (s : St) : M.pure a s = .ok a s := rfl

theorem TypeChecker.set_module_ok_apply (s : St) :
    TypeChecker.set_module_ok s = .ok () { s with moduleOk := true } := rfl

namespace TypeChecker

/-- Claim C6: for an `Assignment` whose left-hand side checks to a simple
type but is not an lvalue, `check_assignment_stmt` raises the
InvalidLvalue error at the left-hand side, and at the statement boundary
this becomes one diagnostic.  The right-hand side `rval` is universally
quantified and absent from both conclusions: the outcome is the same for
every right-hand side, so the right-hand side is never checked and its
`typ` / `lvalue` fields are never assigned. -/
theorem c6_assign_to_non_lvalue (ctx : Ctx) (fuel : Nat) (lval rval : ast.Expr)
    (loc : Nat) (s : St) (e1 : ast.Expr) (s1 : St) (t : ast.Typ)
    (h : check_expr ctx fuel lval false s = .ok e1 s1)
    (ht : e1.typ = some t)
    (hs : ctx.is_simple_type t = true)
    (hlv : truthy e1.lvalue = false) :
    check_assignment_stmt ctx (fuel + 1) (.assignment lval rval loc) s
      = .err (.semantic ("No valid lvalue " ++ e1.fmt) (some e1.loc)) s1
    ∧ check_stmt ctx (fuel + 2) (.assignment lval rval loc) s
      = .ok () ⟨s1.diags ++ [("No valid lvalue " ++ e1.fmt, some e1.loc)], false⟩ := by
  have h1 : check_assignment_stmt ctx (fuel + 1) (.assignment lval rval loc) s
      = .err (.semantic ("No valid lvalue " ++ e1.fmt) (some e1.loc)) s1 := by
    simp only [check_assignment_stmt, M.bind_apply, h, ast.Expr.getTypM, ht,
      M.pure_def, hs, hlv, Bool.false_eq_true, not_false_eq_true, if_true,
      not_true, if_false, M.throw]
  refine ⟨h1, ?_⟩
  simp only [check_stmt, M.tryCatchSem, h1, error]

end TypeChecker

namespace TypeChecker

/-- Witness for C6: checking `5 = x;` yields exactly the InvalidLvalue
diagnostic, with the right-hand side `x` untouched. -/
theorem c6_assign_to_non_lvalue_witness :
    check_stmt ctx0 9
      (.assignment (.mk (.literal (.intVal 5)) 11 none none)
        (.mk (.identifier "x") 12 none none) 13) st0
      = .ok () ⟨[("No valid lvalue literal", some 11)], false⟩ :=
  (c6_assign_to_non_lvalue ctx0 7 (.mk (.literal (.intVal 5)) 11 none none)
    (.mk (.identifier "x") 12 none none) 13 st0
    (.mk (.literal (.intVal 5)) 11 (some intT) (some false)) st0 intT
    rfl rfl rfl rfl).2

/-- Claim C1 counterexample: with two modules that each contain an invalid
global type, `check` raises the aggregate "Errors occurred" error already
at the end of the first module: the failure state holds only the first
module's diagnostic, while the second conjunct shows that checking the
second module by itself does emit its own diagnostic ("Invalid type U?").
So the pass does not attempt every module before failing. -/
theorem c1_counterexample :
    check ctx1 10 st0
      = .err (.semantic "Errors occurred" none) ⟨[("Invalid type T?", none)], false⟩
    ∧ check_modules ctx1 10 [mod2] st0
      = .err (.semantic "Errors occurred" none) ⟨[("Invalid type U?", none)], false⟩ :=
  ⟨rfl, rfl⟩

/-- Claim C1 amended: the aggregate error is raised per module, not per
pass.  First conjunct: a failure of `check_module` propagates out of the
module loop unchanged, so the remaining modules are never checked.  Second
conjunct: when the body of `check_module` (top-level checks plus the
per-function loop) completes with the module flagged invalid,
`check_module` raises the generic `SemanticError("Errors occurred")` at
exactly that state, all diagnostics already recorded. -/
theorem c1_aggregate_error_per_module :
    (∀ (ctx : Ctx) (fuel : Nat) (m : ast.Module) (rest : List ast.Module)
        (s : St) (e : Failure) (s' : St),
      check_module ctx fuel m s = .err e s' →
        check_modules ctx (fuel + 1) (m :: rest) s = .err e s')
    ∧ (∀ (ctx : Ctx) (fuel : Nat) (m : ast.Module) (s s2 : St),
      (do
        set_module_ok
        M.tryCatchSem (check_module_top ctx m) (fun msg loc => error msg loc)
        check_functions ctx fuel m.functions : M Unit) s = .ok () s2 →
      s2.moduleOk = false →
        check_module ctx (fuel + 1) m s = .err (.semantic "Errors occurred" none) s2) := by
  constructor
  · intro ctx fuel m rest s e s' h
    simp only [check_modules, M.bind_apply, h]
  · intro ctx fuel m s s2 hp hmo
    simp only [M.bind_apply, set_module_ok_apply] at hp
    rcases hb : M.tryCatchSem (check_module_top ctx m) (fun msg loc => error msg loc)
        { s with moduleOk := true } with ⟨a, sb⟩ | ⟨e, sb⟩
    · simp only [hb] at hp
      simp only [check_module, M.bind_apply, set_module_ok_apply, hb, hp,
        get_module_ok, hmo, Bool.false_eq_true, if_false, M.throw]
    · simp only [hb] at hp
      exact absurd hp (by intro hx; cases hx)

end TypeChecker

namespace TypeChecker

/-- Witness for C1 (amended): module `mod1` raises the aggregate error, and
the module loop propagates it with `mod2` still pending. -/
theorem c1_aggregate_error_per_module_witness :
    check_modules ctx1 10 [mod1, mod2] st0
      = .err (.semantic "Errors occurred" none) ⟨[("Invalid type T?", none)], false⟩
    ∧ check_module ctx1 10 mod1 st0
      = .err (.semantic "Errors occurred" none) ⟨[("Invalid type T?", none)], false⟩ :=
  ⟨c1_aggregate_error_per_module.1 ctx1 9 mod1 [mod2] st0
      (.semantic "Errors occurred" none) ⟨[("Invalid type T?", none)], false⟩ rfl,
   c1_aggregate_error_per_module.2 ctx1 9 mod1 st0
      ⟨[("Invalid type T?", none)], false⟩ rfl rfl⟩

/-- Claim C2 counterexample: the function declares return type `int` and its
body returns the string literal `"hello"`, yet `check_function` succeeds
with zero diagnostics — no `TypeMismatch` (or any other) error is produced,
refuting the claim at this concrete input. -/
theorem c2_counterexample : check_function ctx0 10 fun_ret_str st0 = .ok () st0 := rfl

/-- Claim C2 amended: `check_return_stmt` checks only the returned
expression as an rvalue and never consults the function's declared return
type, so a function whose body returns a string literal where any simple
return type is declared checks without any error or diagnostic. -/
theorem c2_return_expr_unchecked_against_return_type (ctx : Ctx) (fuel : Nat)
    (name : String) (retT : ast.Typ) (loc lloc rloc : Nat) (sval : String) (s : St)
    (hs : ctx.is_simple_type retT = true) :
    check_function ctx (fuel + 5)
      ⟨name, [], retT, [],
        some (.ret (some (.mk (.literal (.strVal sval)) lloc none none)) rloc), loc⟩ s
      = .ok () s := by
  simp only [check_function, check_parameters, check_type_list, check_stmt,
    check_return_stmt, check_expr, check_expr_kind, is_bool, check_literal_expr,
    rvalue_materialize, M.bind_apply, M.pure_def, M.tryCatchSem, truthy,
    Ctx.get_type, ast.Expr.kind, ast.Expr.typ, ast.Expr.lvalue, ast.Expr.loc,
    ast.Expr.getTypM, ast.Expr.setLvalue, hs, not_true, Bool.true_and,
    Bool.and_false, Bool.false_eq_true, if_false, if_true, List.contains_nil]

/-- Witness for C2 (amended): the fixture function returning `"hello"` with
declared return type `int` checks cleanly. -/
theorem c2_return_expr_unchecked_against_return_type_witness :
    check_function ctx0 10
      ⟨"f", [], intT, [],
        some (.ret (some (.mk (.literal (.strVal "hello")) 5 none none)) 6), 7⟩ st0
      = .ok () st0 :=
  c2_return_expr_unchecked_against_return_type ctx0 5 "f" intT 7 5 6 "hello" st0 rfl

end TypeChecker

namespace TypeChecker

theorem equal_types_int_int (ctx : Ctx) :
    ctx.equal_types (.baseType "int") (.baseType "int") = true := rfl

/-- Case loop over `n` copies of a non-default case (an integer-literal case
value with an empty body): every body and case value checks cleanly, no
default case is seen, and the state is untouched. -/
theorem check_switch_options_replicate (ctx : Ctx) (j : Int) (llit : Nat) :
    ∀ (n fuel : Nat) (b : Bool) (s : St), n ≤ fuel →
      check_switch_options ctx (fuel + 2)
        (List.replicate n (some (.mk (.literal (.intVal j)) llit none none), ast.Stmt.empty)) b s
        = .ok b s := by
  intro n
  induction n with
  | zero =>
    intro fuel b s _
    simp only [List.replicate]
    rfl
  | succ n ih =>
    intro fuel b s hn
    cases fuel with
    | zero => omega
    | succ g =>
      have hstmt : check_stmt ctx (g + 2) ast.Stmt.empty s = .ok () s :=
        check_stmt_empty ctx (g + 1) s
      have hexpr := check_expr_int_literal ctx g j llit false s
      have hrec := ih g b s (by omega)
      simp only [List.replicate, check_switch_options, M.bind_apply, hstmt, hexpr]
      exact hrec

/-- Claim C7: a `Switch` statement with an int-typed scrutinee and zero
default cases yields exactly one `MissingDefaultCase` diagnostic
("No default case specified in switch-case"), regardless of how many
non-default cases it contains: for every number `n` of non-default cases,
checking the statement appends exactly that one diagnostic to the state. -/
theorem c7_switch_missing_default (ctx : Ctx) (fuel n : Nat) (k j : Int)
    (lscrut llit loc : Nat) (s : St) (hn : n ≤ fuel) :
    check_stmt ctx (fuel + 4)
      (.switch (.mk (.literal (.intVal k)) lscrut none none)
        (List.replicate n (some (.mk (.literal (.intVal j)) llit none none), ast.Stmt.empty))
        loc) s
      = .ok () ⟨s.diags ++ [("No default case specified in switch-case", some loc)], false⟩ := by
  have hscrut := check_expr_int_literal ctx fuel k lscrut true s
  have hloop := check_switch_options_replicate ctx j llit n fuel false s hn
  simp only [check_stmt, M.tryCatchSem, check_switch_stmt, M.bind_apply, hscrut,
    hloop, ast.Expr.getTypM, ast.Expr.typ, ast.Expr.loc, M.pure_def,
    equal_types_int_int, not_true, Bool.false_eq_true, if_false, if_true,
    M.throw, error]

/-- Witness for C7: a three-case default-less switch over the literal `0`
produces exactly the one MissingDefaultCase diagnostic. -/
theorem c7_switch_missing_default_witness :
    check_stmt ctx0 9
      (.switch (.mk (.literal (.intVal 0)) 14 none none)
        (List.replicate 3 (some (.mk (.literal (.intVal 1)) 15 none none), ast.Stmt.empty))
        16) st0
      = .ok () ⟨[("No default case specified in switch-case", some 16)], false⟩ :=
  c7_switch_missing_default ctx0 5 3 0 1 14 15 16 st0 (by omega)

end TypeChecker

/-- Spec-side coercion table (claim C4 / spec section 4.5), written as the
plain disjunction of the pairings the spec lists — pointer to pointer (any
pointee), int to pointer, int to byte, int to double, double to float,
float to double, byte to int — to be compared against the branch chain of
`do_coerce`. -/
def coercible (ctx : Ctx) (frm to_t : ast.Typ) : Bool :=
  (frm.isPointer && to_t.isPointer)
  || (ctx.equal_types (.baseType "int") frm && to_t.isPointer)
  || (ctx.equal_types (.baseType "int") frm && ctx.equal_types (.baseType "byte") to_t)
  || (ctx.equal_types (.baseType "int") frm && ctx.equal_types (.baseType "double") to_t)
  || (ctx.equal_types (.baseType "double") frm && ctx.equal_types (.baseType "float") to_t)
  || (ctx.equal_types (.baseType "float") frm && ctx.equal_types (.baseType "double") to_t)
  || (ctx.equal_types (.baseType "byte") frm && ctx.equal_types (.baseType "int") to_t)

/-- Collapse of a seven-way if-chain whose positive branches coincide. -/
theorem ite_chain7 {α : Type} (c2 c3 c4 c5 c6 c7 c8 : Bool) (X Y : α) :
    ((c2 || c3 || c4 || c5 || c6 || c7 || c8) = true →
      (if c2 then X else if c3 then X else if c4 then X else if c5 then X
        else if c6 then X else if c7 then X else if c8 then X else Y) = X)
    ∧ ((c2 || c3 || c4 || c5 || c6 || c7 || c8) = false →
      (if c2 then X else if c3 then X else if c4 then X else if c5 then X
        else if c6 then X else if c7 then X else if c8 then X else Y) = Y) := by
  cases c2 <;> cases c3 <;> cases c4 <;> cases c5 <;> cases c6 <;> cases c7 <;>
    cases c8 <;> simp

/-- Fixture: an already-checked integer literal (type `int`, rvalue). -/
def int_lit_checked : ast.Expr := .mk (.literal (.intVal 3)) 26 (some intT) (some false)

namespace TypeChecker

/-- Claim C4: for an expression whose resolved type differs from the target
type, `do_coerce` follows exactly the fixed rule table.  First conjunct: a
pairing outside the table fails with the IncompatibleTypes error naming the
type it has and the type it wants.  Second conjunct: a pairing inside the
table wraps the expression in a synthetic `TypeCast` and continues as the
re-check of that cast.  Third conjunct: whenever that re-check succeeds, the
result really is the cast-wrapped expression, resolved at the target type. -/
theorem c4_coercion_rule_table (ctx : Ctx) (fuel : Nat) (expr : ast.Expr)
    (typ frm : ast.Typ) (s : St)
    (ht : expr.typ = some frm) (hne : ctx.equal_types frm typ = false) :
    (coercible ctx frm typ = false →
      do_coerce ctx (fuel + 1) expr typ s
        = .err (.semantic ("Cannot use '" ++ frm.fmt ++ "' as '" ++ typ.fmt ++ "'")
            (some expr.loc)) s)
    ∧ (coercible ctx frm typ = true →
      do_coerce ctx (fuel + 1) expr typ s
        = check_expr ctx fuel (.mk (.typeCast typ expr) expr.loc none none) false s)
    ∧ (∀ (e' : ast.Expr) (s' : St),
      check_expr ctx (fuel + 1) (.mk (.typeCast typ expr) expr.loc none none) false s
        = .ok e' s' →
      ∃ a', e' = .mk (.typeCast typ a') expr.loc (some typ) (some false)) := by
  refine ⟨?_, ?_, ?_⟩
  · intro hc
    simp only [coercible] at hc
    simp only [do_coerce, M.bind_apply, ast.Expr.getTypM, ht, M.pure_def, hne,
      Bool.false_eq_true, if_false]
    rw [(ite_chain7 _ _ _ _ _ _ _ _ _).2 hc]
    rfl
  · intro hc
    simp only [coercible] at hc
    simp only [do_coerce, M.bind_apply, ast.Expr.getTypM, ht, M.pure_def, hne,
      Bool.false_eq_true, if_false]
    rw [(ite_chain7 _ _ _ _ _ _ _ _ _).1 hc]
    rfl
  · intro e' s' h
    cases fuel with
    | zero => simp [check_expr, check_expr_kind, M.bind_apply, M.throw] at h
    | succ g =>
      cases g with
      | zero =>
        simp [check_expr, check_expr_kind, check_type_cast, is_bool, ast.Expr.kind,
          binop_cond_ops, unop_cond_ops, M.bind_apply, M.throw, rvalue_materialize] at h
      | succ g2 =>
        simp only [check_expr, check_expr_kind, is_bool, ast.Expr.kind,
          check_type_cast, M.bind_apply, M.throw, Bool.false_eq_true, if_false,
          rvalue_materialize, M.pure_def] at h
        rcases hi : check_expr ctx g2 expr true s with ⟨a2, s2⟩ | ⟨e2, s2⟩
        · simp only [hi, ast.Expr.lvalue, truthy, Bool.and_false,
            Bool.false_eq_true, if_false, M.pure_def, Res.ok.injEq] at h
          exact ⟨a2, h.1.symm⟩
        · simp only [hi] at h
          exact absurd h (by intro hx; cases hx)

end TypeChecker

namespace TypeChecker

/-- Witness for C4: coercing a checked `int` literal to `struct` fails with
the IncompatibleTypes message naming both types; coercing it to `byte`
proceeds as the re-check of the synthetic cast, and that re-check yields the
cast-wrapped literal resolved at `byte`. -/
theorem c4_coercion_rule_table_witness :
    do_coerce ctx0 7 int_lit_checked structT st0
      = .err (.semantic "Cannot use 'int' as 'struct'" (some 26)) st0
    ∧ do_coerce ctx0 7 int_lit_checked (.baseType "byte") st0
      = check_expr ctx0 6
          (.mk (.typeCast (.baseType "byte") int_lit_checked) 26 none none) false st0
    ∧ ∃ a', (ast.Expr.mk (.typeCast (.baseType "byte") int_lit_checked) 26
          (some (.baseType "byte")) (some false))
        = .mk (.typeCast (.baseType "byte") a') 26 (some (.baseType "byte")) (some false) :=
  ⟨(c4_coercion_rule_table ctx0 6 int_lit_checked structT intT st0 rfl rfl).1 rfl,
   (c4_coercion_rule_table ctx0 6 int_lit_checked (.baseType "byte") intT st0 rfl rfl).2.1 rfl,
   (c4_coercion_rule_table ctx0 6 int_lit_checked (.baseType "byte") intT st0 rfl rfl).2.2
     (.mk (.typeCast (.baseType "byte") int_lit_checked) 26
       (some (.baseType "byte")) (some false)) st0 rfl⟩

/-- Shape of a successful generic re-check of a `TypeCast` node
(`check_type_cast`): the result is again a cast node with the same target
type and location, resolved at the target type and no longer an lvalue. -/
theorem check_expr_typeCast_shape (ctx : Ctx) (fuel : Nat) (typ : ast.Typ)
    (a : ast.Expr) (l : Nat) (tp : Option ast.Typ) (lv : Option Bool)
    (e' : ast.Expr) (s s' : St)
    (h : check_expr ctx fuel (.mk (.typeCast typ a) l tp lv) false s = .ok e' s') :
    ∃ a', e' = .mk (.typeCast typ a') l (some typ) (some false) := by
  cases fuel with
  | zero => simp [check_expr, M.throw] at h
  | succ g =>
    cases g with
    | zero =>
      simp [check_expr, check_expr_kind, check_type_cast, is_bool, ast.Expr.kind,
        binop_cond_ops, unop_cond_ops, M.bind_apply, M.throw, rvalue_materialize] at h
    | succ g2 =>
      cases g2 with
      | zero =>
        simp [check_expr, check_expr_kind, check_type_cast, is_bool, ast.Expr.kind,
          binop_cond_ops, unop_cond_ops, M.bind_apply, M.throw, rvalue_materialize] at h
      | succ g3 =>
        simp only [check_expr, check_expr_kind, is_bool, ast.Expr.kind,
          check_type_cast, M.bind_apply, M.throw, Bool.false_eq_true, if_false,
          rvalue_materialize, M.pure_def] at h
        rcases hi : check_expr ctx g3 a true s with ⟨a2, s2⟩ | ⟨e2, s2⟩
        · simp only [hi, ast.Expr.lvalue, truthy, Bool.and_false,
            Bool.false_eq_true, if_false, M.pure_def, Res.ok.injEq] at h
          exact ⟨a2, h.1.symm⟩
        · simp only [hi] at h
          exact absurd h (by intro hx; cases hx)

/-- Claim C8: coercion to the node's own type is a no-op modulo re-check.
First conjunct: when the expression's resolved type already equals the
target type, `do_coerce` constructs no cast at all — it is exactly the
generic re-check of the original node (Python returns the same object).
Second conjunct: coercing an already-wrapped cast node to the same target
type again leaves its resolved type unchanged. -/
theorem c8_coerce_noop_idempotent :
    (∀ (ctx : Ctx) (fuel : Nat) (expr : ast.Expr) (typ frm : ast.Typ) (s : St),
      expr.typ = some frm → ctx.equal_types frm typ = true →
      do_coerce ctx (fuel + 1) expr typ s = check_expr ctx fuel expr false s)
    ∧ (∀ (ctx : Ctx) (fuel : Nat) (a : ast.Expr) (typ : ast.Typ) (l : Nat)
        (lv : Option Bool) (e' : ast.Expr) (s s' : St),
      do_coerce ctx (fuel + 1) (.mk (.typeCast typ a) l (some typ) lv) typ s
        = .ok e' s' →
      e'.typ = some typ) := by
  constructor
  · intro ctx fuel expr typ frm s ht heq
    simp only [do_coerce, M.bind_apply, ast.Expr.getTypM, ht, M.pure_def, heq,
      if_true]
  · intro ctx fuel a typ l lv e' s s' h
    simp only [do_coerce, M.bind_apply, ast.Expr.getTypM, ast.Expr.typ,
      M.pure_def, Ctx.equal_types_refl, if_true] at h
    obtain ⟨a', he⟩ := check_expr_typeCast_shape ctx fuel typ a l (some typ) lv e' s s' h
    rw [he]
    rfl

/-- Witness for C8: coercing the checked `int` literal to `int` is exactly
its re-check, and re-coercing an `int` cast node to `int` keeps its
resolved type. -/
theorem c8_coerce_noop_idempotent_witness :
    do_coerce ctx0 7 int_lit_checked intT st0 = check_expr ctx0 6 int_lit_checked false st0
    ∧ (ast.Expr.mk (.typeCast intT int_lit_checked) 26 (some intT) (some false)).typ
        = some intT :=
  ⟨c8_coerce_noop_idempotent.1 ctx0 6 int_lit_checked intT intT st0 rfl rfl,
   c8_coerce_noop_idempotent.2 ctx0 6 int_lit_checked intT 26 (some false)
     (.mk (.typeCast intT int_lit_checked) 26 (some intT) (some false)) st0 st0 rfl⟩

end TypeChecker

namespace TypeChecker

/-- Claim C5: when the kind dispatch of `check_expr` leaves an lvalue and an
rvalue was requested, the rvalue-materialization step applies: if the
resolved type is a pointer or a scalar base type, only the `lvalue` flag is
flipped to `false` (the type is unchanged); otherwise checking fails with
the `Cannot deref` error. -/
theorem c5_rvalue_materialization (ctx : Ctx) (fuel : Nat) (e : ast.Expr) (s : St)
    (e1 : ast.Expr) (s1 : St) (t : ast.Typ)
    (h1 : check_expr_kind ctx fuel e s = .ok e1 s1)
    (h2 : e1.lvalue = some true)
    (h3 : e1.typ = some t) :
    (((ctx.get_type t).isPointer || (ctx.get_type t).isBase) = true →
      check_expr ctx (fuel + 1) e true s = .ok (e1.setLvalue (some false)) s1
      ∧ (e1.setLvalue (some false)).typ = e1.typ)
    ∧ (((ctx.get_type t).isPointer || (ctx.get_type t).isBase) = false →
      check_expr ctx (fuel + 1) e true s
        = .err (.semantic ("Cannot deref " ++ (ctx.get_type t).fmt) (some e1.loc)) s1) := by
  constructor
  · intro hok
    refine ⟨?_, ast.Expr.setLvalue_typ e1 (some false)⟩
    have hok' : (ctx.get_type t).isPointer = true ∨ (ctx.get_type t).isBase = true := by
      simpa using hok
    simp [check_expr, M.bind_apply, h1, rvalue_materialize, h2, truthy,
      ast.Expr.getTypM, h3, M.pure_def, hok']
  · intro hbad
    simp only [Bool.or_eq_false_iff] at hbad
    simp [check_expr, M.bind_apply, h1, rvalue_materialize, h2, truthy,
      ast.Expr.getTypM, h3, M.pure_def, hbad.1, hbad.2, M.throw]

/-- Witness for C5: `x` (an `int` variable, an lvalue after dispatch) is
materialized to an rvalue with its type unchanged; `sv` (a structure
variable) fails with `Cannot deref`. -/
theorem c5_rvalue_materialization_witness :
    check_expr ctx0 4 (.mk (.identifier "x") 1 none none) true st0
      = .ok (.mk (.identifier "x") 1 (some intT) (some false)) st0
    ∧ check_expr ctx0 4 (.mk (.identifier "sv") 27 none none) true st0
      = .err (.semantic "Cannot deref struct" (some 27)) st0 :=
  ⟨((c5_rvalue_materialization ctx0 3 (.mk (.identifier "x") 1 none none) st0
      (.mk (.identifier "x") 1 (some intT) (some true)) st0 intT rfl rfl rfl).1 rfl).1,
   (c5_rvalue_materialization ctx0 3 (.mk (.identifier "sv") 27 none none) st0
      (.mk (.identifier "sv") 27 (some structT) (some true)) st0 structT rfl rfl rfl).2 rfl⟩

end TypeChecker

theorem truthy_eq_true_iff (v : Option Bool) : truthy v = true ↔ v = some true := by
  cases v with
  | none => simp [truthy]
  | some b => cases b <;> simp [truthy]

namespace TypeChecker

/-- Claim C10: the addressability `assert`s of `check_index_expr` (line 385)
and `check_member_expr` (line 358).  First two conjuncts: whenever these
checks complete normally, the resulting node's `is_lvalue` flag is `true`.
Last two conjuncts: when the base checks successfully but is not an lvalue
(a constant array / structure), the failure is an `AssertionError`, not a
`SemanticError`, and it escapes the statement-level containment of
`check_stmt`, which catches only `SemanticError`. -/
theorem c10_addressability_assertions :
    (∀ (ctx : Ctx) (fuel : Nat) (e : ast.Expr) (s : St) (e' : ast.Expr) (s' : St),
      check_index_expr ctx fuel e s = .ok e' s' → e'.lvalue = some true)
    ∧ (∀ (ctx : Ctx) (fuel : Nat) (e : ast.Expr) (s : St) (e' : ast.Expr) (s' : St),
      check_member_expr ctx fuel e s = .ok e' s' → e'.lvalue = some true)
    ∧ check_stmt ctx0 10
        (.assignment (.mk (.index (.mk (.identifier "k") 17 none none)
            (.mk (.literal (.intVal 0)) 18 none none)) 19 none none)
          (.mk (.identifier "x") 20 none none) 21) st0
        = .err .assertionFailed st0
    ∧ check_stmt ctx0 10
        (.assignment (.mk (.member (.mk (.identifier "c") 22 none none) "f") 23 none none)
          (.mk (.identifier "x") 24 none none) 25) st0
        = .err .assertionFailed st0 := by
  refine ⟨?_, ?_, rfl, rfl⟩
  · intro ctx fuel e s e' s' h
    cases fuel with
    | zero => exact Res.noConfusion h
    | succ g =>
      simp only [check_index_expr] at h
      cases hk : e.kind <;> simp only [hk, M.throw] at h <;>
        first
        | exact Res.noConfusion h
        | skip
      rename_i base i
      simp only [M.bind_apply] at h
      rcases hb : check_expr ctx g base false s with ⟨b1, s1⟩ | ⟨f1, s1⟩
      case err => simp only [hb] at h; exact Res.noConfusion h
      simp only [hb] at h
      rcases hi2 : check_expr ctx g i true s1 with ⟨i1, s2⟩ | ⟨f2, s2⟩
      case err => simp only [hi2] at h; exact Res.noConfusion h
      simp only [hi2, ast.Expr.getTypM] at h
      rcases htb : b1.typ with _ | tb
      · simp only [htb, M.throw] at h
        exact Res.noConfusion h
      simp only [htb, M.pure_def, Ctx.get_type] at h
      cases tb <;>
        first
        | (simp only [M.throw] at h; exact Res.noConfusion h)
        | skip
      rename_i elemT
      simp only [M.bind_apply] at h
      rcases hdc : do_coerce ctx g i1 (.baseType "int") s2 with ⟨i2, s3⟩ | ⟨f3, s3⟩
      case err => simp only [hdc] at h; exact Res.noConfusion h
      simp only [hdc] at h
      cases htl : truthy b1.lvalue
      · simp only [htl, Bool.false_eq_true, if_false, M.throw] at h
        exact Res.noConfusion h
      · simp only [htl, if_true, M.pure_def, Res.ok.injEq] at h
        rw [← h.1]
        rfl
  · intro ctx fuel e s e' s' h
    cases fuel with
    | zero => exact Res.noConfusion h
    | succ g =>
      simp only [check_member_expr] at h
      cases hk : e.kind <;> simp only [hk, M.throw] at h <;>
        first
        | exact Res.noConfusion h
        | skip
      rename_i base field
      simp only [M.bind_apply] at h
      rcases hmr : is_module_ref ctx g e s with ⟨mb, smr⟩ | ⟨fmr, smr⟩
      case err => simp only [hmr] at h; exact Res.noConfusion h
      simp only [hmr] at h
      cases mb with
      | true =>
        simp only [eq_self_iff_true, if_true, M.bind_apply] at h
        rcases hrs : resolve_symbol ctx e smr with ⟨sym, srs⟩ | ⟨frs, srs⟩
        case err => simp only [hrs] at h; exact Res.noConfusion h
        simp only [hrs] at h
        cases sym <;> try simp only [M.throw] at h
        all_goals try exact Res.noConfusion h
        rename_i t
        simp only [M.pure_def, Res.ok.injEq] at h
        rw [← h.1]
        rfl
      | false =>
        simp only [Bool.false_eq_true, if_false, M.bind_apply] at h
        rcases hb : check_expr ctx g base false smr with ⟨b1, s1⟩ | ⟨f1, s1⟩
        case err => simp only [hb] at h; exact Res.noConfusion h
        simp only [hb, ast.Expr.getTypM, M.bind_apply] at h
        rcases htb : b1.typ with _ | tb
        · simp only [htb, M.throw] at h
          exact Res.noConfusion h
        simp only [htb, M.pure_def, Ctx.get_type, M.bind_apply] at h
        cases tb <;> try simp only [M.throw] at h
        all_goals try exact Res.noConfusion h
        rename_i flds
        simp only [check_type, ast.Typ.well_formed, if_true, M.bind_apply,
          M.pure_def] at h
        rcases hlk : flds.lookup field with _ | ft
        · simp only [hlk, M.throw] at h
          exact Res.noConfusion h
        simp only [hlk] at h
        cases htl : truthy b1.lvalue
        · simp only [htl, Bool.false_eq_true, if_false, M.throw] at h
          exact Res.noConfusion h
        · simp only [htl, if_true, M.pure_def, Res.ok.injEq] at h
          rw [← h.1]
          exact (truthy_eq_true_iff b1.lvalue).mp htl

end TypeChecker

namespace TypeChecker

/-- Witness for C10: indexing the array variable `av` and selecting the
field of the structure variable `sv` both succeed, and the resulting nodes
are lvalues. -/
theorem c10_addressability_assertions_witness :
    check_index_expr ctx0 5 (.mk (.index (.mk (.identifier "av") 30 none none)
        (.mk (.literal (.intVal 0)) 31 none none)) 32 none none) st0
      = .ok (.mk (.index (.mk (.identifier "av") 30 (some arrT) (some true))
          (.mk (.literal (.intVal 0)) 31 (some intT) (some false))) 32
          (some intT) (some true)) st0
    ∧ (ast.Expr.mk (.index (.mk (.identifier "av") 30 (some arrT) (some true))
          (.mk (.literal (.intVal 0)) 31 (some intT) (some false))) 32
          (some intT) (some true)).lvalue = some true
    ∧ check_member_expr ctx0 5 (.mk (.member (.mk (.identifier "sv") 33 none none) "f")
        34 none none) st0
      = .ok (.mk (.member (.mk (.identifier "sv") 33 (some structT) (some true)) "f")
          34 (some intT) (some true)) st0
    ∧ (ast.Expr.mk (.member (.mk (.identifier "sv") 33 (some structT) (some true)) "f")
          34 (some intT) (some true)).lvalue = some true :=
  ⟨rfl,
   c10_addressability_assertions.1 ctx0 5
     (.mk (.index (.mk (.identifier "av") 30 none none)
       (.mk (.literal (.intVal 0)) 31 none none)) 32 none none) st0
     (.mk (.index (.mk (.identifier "av") 30 (some arrT) (some true))
       (.mk (.literal (.intVal 0)) 31 (some intT) (some false))) 32
       (some intT) (some true)) st0 rfl,
   rfl,
   c10_addressability_assertions.2.1 ctx0 5
     (.mk (.member (.mk (.identifier "sv") 33 none none) "f") 34 none none) st0
     (.mk (.member (.mk (.identifier "sv") 33 (some structT) (some true)) "f")
       34 (some intT) (some true)) st0 rfl⟩

end TypeChecker

namespace TypeChecker

/-- Claim C9 counterexample: visiting `x` (an `int` variable) with an rvalue
request finalizes it with `is_lvalue = false` (first conjunct).  Checking
the binop `x + y` visits `x` exactly that way, but then `do_coerce` — on
the no-cast path, since operand and common type are both `int` — re-checks
the already-visited node, re-running `check_identifier` and overwriting its
`is_lvalue` back to `true` with no cast spliced (second conjunct).  So a
successfully visited node's fields are revisited and overwritten by an
operation other than coercion wrapping. -/
theorem c9_counterexample :
    check_expr ctx0 9 (.mk (.identifier "x") 1 none none) true st0
      = .ok (.mk (.identifier "x") 1 (some intT) (some false)) st0
    ∧ binop_left (check_expr ctx0 9
        (.mk (.binop (.mk (.identifier "x") 1 none none) "+"
          (.mk (.identifier "y") 2 none none)) 3 none none) false st0)
      = some (.mk (.identifier "x") 1 (some intT) (some true)) :=
  ⟨rfl, rfl⟩

/-- Fields of a successfully checked identifier (`check_identifier` resolves
the symbol and writes both checker fields). -/
theorem check_identifier_fields (ctx : Ctx) (e : ast.Expr) (s : St)
    (e' : ast.Expr) (s' : St) (h : check_identifier ctx e s = .ok e' s') :
    e'.typ.isSome = true ∧ e'.lvalue.isSome = true := by
  simp only [check_identifier, M.bind_apply] at h
  rcases hrs : resolve_symbol ctx e s with ⟨sym, s1⟩ | ⟨f1, s1⟩
  case err => simp only [hrs] at h; exact Res.noConfusion h
  simp only [hrs] at h
  cases sym <;> try simp only [M.throw] at h
  all_goals try exact Res.noConfusion h
  all_goals
    simp only [M.pure_def, Res.ok.injEq] at h
  all_goals rw [← h.1]
  all_goals exact ⟨rfl, rfl⟩

/-- Fields of a successfully checked literal. -/
theorem check_literal_expr_fields (ctx : Ctx) (e : ast.Expr) (s : St)
    (e' : ast.Expr) (s' : St) (h : check_literal_expr ctx e s = .ok e' s') :
    e'.typ.isSome = true ∧ e'.lvalue.isSome = true := by
  simp only [check_literal_expr] at h
  cases hk : e.kind <;> simp only [hk, M.throw] at h
  all_goals try exact Res.noConfusion h
  rename_i v
  cases v <;> try simp only [M.throw] at h
  all_goals try exact Res.noConfusion h
  all_goals simp only [M.pure_def, Res.ok.injEq] at h
  all_goals rw [← h.1]
  all_goals exact ⟨rfl, rfl⟩

/-- Fields of a successfully checked `sizeof`. -/
theorem check_sizeof_fields (ctx : Ctx) (e : ast.Expr) (s : St)
    (e' : ast.Expr) (s' : St) (h : check_sizeof ctx e s = .ok e' s') :
    e'.typ.isSome = true ∧ e'.lvalue.isSome = true := by
  simp only [check_sizeof] at h
  cases hk : e.kind <;> simp only [hk, M.throw] at h
  all_goals try exact Res.noConfusion h
  rename_i q
  cases hwf : q.well_formed <;>
    simp only [check_type, hwf, Bool.false_eq_true, if_false, if_true,
      M.bind_apply, M.throw, M.pure_def, Res.ok.injEq] at h
  · exact Res.noConfusion h
  · rw [← h.1]
    exact ⟨rfl, rfl⟩

/-- Rvalue materialization keeps both checker fields assigned. -/
theorem rvalue_materialize_fields (ctx : Ctx) (rv : Bool) (e1 : ast.Expr)
    (s : St) (e' : ast.Expr) (s' : St)
    (hT : e1.typ.isSome = true) (hL : e1.lvalue.isSome = true)
    (h : rvalue_materialize ctx rv e1 s = .ok e' s') :
    e'.typ.isSome = true ∧ e'.lvalue.isSome = true := by
  simp only [rvalue_materialize] at h
  cases hc : (rv && truthy e1.lvalue) <;>
    simp only [hc, Bool.false_eq_true, if_false, if_true, M.pure_def,
      M.bind_apply, Res.ok.injEq] at h
  · rw [← h.1]; exact ⟨hT, hL⟩
  · obtain ⟨t, ht⟩ := Option.isSome_iff_exists.mp hT
    simp only [ast.Expr.getTypM, ht, M.pure_def] at h
    cases hp : ((ctx.get_type t).isPointer || (ctx.get_type t).isBase) <;>
      simp only [hp, Bool.false_eq_true, if_false, if_true, M.pure_def,
        M.throw, Res.ok.injEq] at h
    · exact Res.noConfusion h
    · rw [← h.1]
      refine ⟨?_, ?_⟩
      · rw [ast.Expr.setLvalue_typ]; exact hT
      · rw [ast.Expr.setLvalue_lvalue]; rfl

/-- A successful `condition_bool_check` returns its argument unchanged. -/
theorem condition_bool_check_result (ctx : Ctx) (e : ast.Expr) (s : St)
    (e' : ast.Expr) (s' : St) (h : condition_bool_check ctx e s = .ok e' s') :
    e' = e := by
  simp only [condition_bool_check, M.bind_apply] at h
  rcases ht : e.typ with _ | t
  · simp only [ast.Expr.getTypM, ht, M.throw] at h
    exact Res.noConfusion h
  · simp only [ast.Expr.getTypM, ht, M.pure_def] at h
    cases hc : ctx.equal_types t (.baseType "bool") <;>
      simp only [hc, Bool.false_eq_true, not_false_iff, not_true, if_true,
        if_false, M.bind_apply, error, M.pure_def, Res.ok.injEq] at h
    · exact h.1.symm
    · exact h.1.symm

end TypeChecker

namespace TypeChecker

/-- Generic branch of `check_condition` (check the expression, then the
boolean check): a successful run leaves the resolved type assigned. -/
theorem check_condition_generic_case (ctx : Ctx) (g : Nat) (e : ast.Expr) (rv : Bool)
    (s : St) (e' : ast.Expr) (s' : St)
    (ihE : ∀ (s0 : St) (e1 : ast.Expr) (s1 : St),
      check_expr ctx g e rv s0 = .ok e1 s1 →
        e1.typ.isSome = true ∧ e1.lvalue.isSome = true)
    (h : (check_expr ctx g e rv >>= fun e1 => condition_bool_check ctx e1) s = .ok e' s') :
    e'.typ.isSome = true := by
  simp only [M.bind_apply] at h
  rcases hce : check_expr ctx g e rv s with ⟨e1, s1⟩ | ⟨f1, s1⟩
  case err => simp only [hce] at h; exact Res.noConfusion h
  simp only [hce] at h
  rw [condition_bool_check_result ctx e1 s1 e' s' h]
  exact (ihE s e1 s1 hce).1

/-- Both checker-assigned fields are set after every successful expression
visit, simultaneously for all expression-side checker functions (induction
on the fuel; every recursive call uses one unit less). -/
theorem fields_set_aux : ∀ fuel : Nat,
    (∀ (ctx : Ctx) (e : ast.Expr) (rv : Bool) (s : St) (e' : ast.Expr) (s' : St),
      check_expr ctx fuel e rv s = .ok e' s' →
        e'.typ.isSome = true ∧ e'.lvalue.isSome = true)
    ∧ (∀ (ctx : Ctx) (e : ast.Expr) (s : St) (e' : ast.Expr) (s' : St),
      check_expr_kind ctx fuel e s = .ok e' s' →
        e'.typ.isSome = true ∧ e'.lvalue.isSome = true)
    ∧ (∀ (ctx : Ctx) (e : ast.Expr) (s : St) (e' : ast.Expr) (s' : St),
      check_bool_expr ctx fuel e s = .ok e' s' →
        e'.typ.isSome = true ∧ e'.lvalue.isSome = true)
    ∧ (∀ (ctx : Ctx) (e : ast.Expr) (s : St) (e' : ast.Expr) (s' : St),
      check_condition ctx fuel e s = .ok e' s' → e'.typ.isSome = true)
    ∧ (∀ (ctx : Ctx) (e : ast.Expr) (s : St) (e' : ast.Expr) (s' : St),
      check_binop ctx fuel e s = .ok e' s' →
        e'.typ.isSome = true ∧ e'.lvalue.isSome = true)
    ∧ (∀ (ctx : Ctx) (e : ast.Expr) (s : St) (e' : ast.Expr) (s' : St),
      check_unop ctx fuel e s = .ok e' s' →
        e'.typ.isSome = true ∧ e'.lvalue.isSome = true)
    ∧ (∀ (ctx : Ctx) (e : ast.Expr) (s : St) (e' : ast.Expr) (s' : St),
      check_dereference ctx fuel e s = .ok e' s' →
        e'.typ.isSome = true ∧ e'.lvalue.isSome = true)
    ∧ (∀ (ctx : Ctx) (e : ast.Expr) (s : St) (e' : ast.Expr) (s' : St),
      check_member_expr ctx fuel e s = .ok e' s' →
        e'.typ.isSome = true ∧ e'.lvalue.isSome = true)
    ∧ (∀ (ctx : Ctx) (e : ast.Expr) (s : St) (e' : ast.Expr) (s' : St),
      check_index_expr ctx fuel e s = .ok e' s' →
        e'.typ.isSome = true ∧ e'.lvalue.isSome = true)
    ∧ (∀ (ctx : Ctx) (e : ast.Expr) (s : St) (e' : ast.Expr) (s' : St),
      check_type_cast ctx fuel e s = .ok e' s' →
        e'.typ.isSome = true ∧ e'.lvalue.isSome = true)
    ∧ (∀ (ctx : Ctx) (e : ast.Expr) (s : St) (e' : ast.Expr) (s' : St),
      check_function_call ctx fuel e s = .ok e' s' →
        e'.typ.isSome = true ∧ e'.lvalue.isSome = true) := by
  intro fuel
  induction fuel with
  | zero =>
    refine ⟨fun ctx e rv s e' s' h => ?_, fun ctx e s e' s' h => ?_,
      fun ctx e s e' s' h => ?_, fun ctx e s e' s' h => ?_,
      fun ctx e s e' s' h => ?_, fun ctx e s e' s' h => ?_,
      fun ctx e s e' s' h => ?_, fun ctx e s e' s' h => ?_,
      fun ctx e s e' s' h => ?_, fun ctx e s e' s' h => ?_,
      fun ctx e s e' s' h => ?_⟩
    all_goals exact Res.noConfusion h
  | succ g ih =>
    obtain ⟨ihE, ihK, ihB, ihC, ihBin, ihU, ihD, ihM, ihI, ihT, ihF⟩ := ih
    refine ⟨?_, ?_, ?_, ?_, ?_, ?_, ?_, ?_, ?_, ?_, ?_⟩
    · -- check_expr
      intro ctx e rv s e' s' h
      simp only [check_expr, M.bind_apply] at h
      rcases hk : check_expr_kind ctx g e s with ⟨e1, s1⟩ | ⟨f1, s1⟩
      case err => simp only [hk] at h; exact Res.noConfusion h
      simp only [hk] at h
      obtain ⟨hT, hL⟩ := ihK ctx e s e1 s1 hk
      exact rvalue_materialize_fields ctx rv e1 s1 e' s' hT hL h
    · -- check_expr_kind
      intro ctx e s e' s' h
      simp only [check_expr_kind] at h
      cases hib : is_bool e
      · simp only [hib, Bool.false_eq_true, if_false] at h
        cases hk : e.kind <;> simp only [hk] at h
        · exact ihBin ctx e s e' s' h
        · exact ihU ctx e s e' s' h
        · exact check_identifier_fields ctx e s e' s' h
        · exact ihD ctx e s e' s' h
        · exact ihM ctx e s e' s' h
        · exact ihI ctx e s e' s' h
        · exact check_literal_expr_fields ctx e s e' s' h
        · exact ihT ctx e s e' s' h
        · exact check_sizeof_fields ctx e s e' s' h
        · exact ihF ctx e s e' s' h
      · simp only [hib, if_true] at h
        exact ihB ctx e s e' s' h
    · -- check_bool_expr
      intro ctx e s e' s' h
      simp only [check_bool_expr, M.bind_apply] at h
      rcases hc : check_condition ctx g e s with ⟨c1, s1⟩ | ⟨f1, s1⟩
      case err => simp only [hc] at h; exact Res.noConfusion h
      simp only [hc, M.pure_def, Res.ok.injEq] at h
      rw [← h.1]
      refine ⟨?_, ?_⟩
      · rw [ast.Expr.setLvalue_typ]; exact ihC ctx e s c1 s1 hc
      · rw [ast.Expr.setLvalue_lvalue]; rfl
    · -- check_condition
      intro ctx e s e' s' h
      simp only [check_condition] at h
      cases hk : e.kind <;> simp only [hk, M.throw] at h
      case binop a op b =>
        cases h1 : (op == "and" || op == "or")
        · simp only [h1, Bool.false_eq_true, if_false] at h
          cases h2 : (["==", ">", "<", "!=", "<=", ">="].contains op)
          · simp only [h2, Bool.false_eq_true, if_false, M.throw] at h
            exact Res.noConfusion h
          · simp only [h2, if_true, M.bind_apply] at h
            rcases ha : check_expr ctx g a true s with ⟨a1, s1⟩ | ⟨f1, s1⟩
            case err => simp only [ha] at h; exact Res.noConfusion h
            simp only [ha, M.bind_apply] at h
            rcases hb : check_expr ctx g b true s1 with ⟨b1, s2⟩ | ⟨f2, s2⟩
            case err => simp only [hb] at h; exact Res.noConfusion h
            simp only [hb, ast.Expr.getTypM, M.bind_apply] at h
            rcases hta : a1.typ with _ | ta
            · simp only [hta, M.throw] at h; exact Res.noConfusion h
            simp only [hta, M.pure_def, M.bind_apply] at h
            rcases hdc : do_coerce ctx g b1 ta s2 with ⟨b2, s3⟩ | ⟨f3, s3⟩
            case err => simp only [hdc] at h; exact Res.noConfusion h
            simp only [hdc] at h
            rw [condition_bool_check_result _ _ _ _ _ h]
            rfl
        · simp only [h1, if_true, M.bind_apply] at h
          rcases ha : check_condition ctx g a s with ⟨a1, s1⟩ | ⟨f1, s1⟩
          case err => simp only [ha] at h; exact Res.noConfusion h
          simp only [ha, M.bind_apply] at h
          rcases hb : check_condition ctx g b s1 with ⟨b1, s2⟩ | ⟨f2, s2⟩
          case err => simp only [hb] at h; exact Res.noConfusion h
          simp only [hb] at h
          rw [condition_bool_check_result _ _ _ _ _ h]
          rfl
      case unop op a =>
        cases h1 : (op == "not")
        · simp only [h1, Bool.false_eq_true, if_false] at h
          exact check_condition_generic_case ctx g e true s e' s'
            (fun s0 e1 s1 hh => ihE ctx e true s0 e1 s1 hh) h
        · simp only [h1, if_true, M.bind_apply] at h
          rcases ha : check_condition ctx g a s with ⟨a1, s1⟩ | ⟨f1, s1⟩
          case err => simp only [ha] at h; exact Res.noConfusion h
          simp only [ha] at h
          rw [condition_bool_check_result _ _ _ _ _ h]
          rfl
      case literal v =>
        exact check_condition_generic_case ctx g e false s e' s'
          (fun s0 e1 s1 hh => ihE ctx e false s0 e1 s1 hh) h
      all_goals
        apply check_condition_generic_case ctx g e true s e' s'
          (fun s0 e1 s1 hh => ihE ctx e true s0 e1 s1 hh) h
    · -- check_binop
      intro ctx e s e' s' h
      simp only [check_binop] at h
      cases hk : e.kind <;> simp only [hk, M.throw] at h
      all_goals try exact Res.noConfusion h
      rename_i a op b
      cases h1 : binop_cond_ops.contains op <;>
        simp only [h1, Bool.false_eq_true, if_false, if_true, M.throw,
          M.bind_apply] at h
      · rcases ha : check_expr ctx g a true s with ⟨a1, s1⟩ | ⟨f1, s1⟩
        case err => simp only [ha] at h; exact Res.noConfusion h
        simp only [ha, M.bind_apply] at h
        rcases hb : check_expr ctx g b true s1 with ⟨b1, s2⟩ | ⟨f2, s2⟩
        case err => simp only [hb] at h; exact Res.noConfusion h
        simp only [hb, M.bind_apply] at h
        rcases hct : get_common_type ctx a1 b1 s2 with ⟨ct, s3⟩ | ⟨f3, s3⟩
        case err => simp only [hct] at h; exact Res.noConfusion h
        simp only [hct] at h
        cases h2 : (["+", "-", "*", "/", "%", "<<", ">>", "|", "&", "^"].contains op) <;>
          simp only [h2, Bool.false_eq_true, not_false_iff, not_true, if_true,
            if_false, M.throw, M.bind_apply] at h
        · exact Res.noConfusion h
        · rcases hda : do_coerce ctx g a1 ct s3 with ⟨a2, s4⟩ | ⟨f4, s4⟩
          case err => simp only [hda] at h; exact Res.noConfusion h
          simp only [hda, M.bind_apply] at h
          rcases hdb : do_coerce ctx g b1 ct s4 with ⟨b2, s5⟩ | ⟨f5, s5⟩
          case err => simp only [hdb] at h; exact Res.noConfusion h
          simp only [hdb, M.pure_def, Res.ok.injEq] at h
          rw [← h.1]; exact ⟨rfl, rfl⟩
      · exact Res.noConfusion h
    · -- check_unop
      intro ctx e s e' s' h
      simp only [check_unop] at h
      cases hk : e.kind <;> simp only [hk, M.throw] at h
      all_goals try exact Res.noConfusion h
      rename_i op a
      cases h1 : (op == "&")
      · simp only [h1, Bool.false_eq_true, if_false] at h
        cases h2 : (op == "+" || op == "-")
        · simp only [h2, Bool.false_eq_true, if_false, M.throw] at h
          exact Res.noConfusion h
        · simp only [h2, if_true, M.bind_apply] at h
          rcases ha : check_expr ctx g a true s with ⟨a1, s1⟩ | ⟨f1, s1⟩
          case err => simp only [ha] at h; exact Res.noConfusion h
          simp only [ha, M.pure_def, Res.ok.injEq] at h
          rw [← h.1]
          refine ⟨?_, rfl⟩
          have hti := (ihE ctx a true s a1 s1 ha).1
          simpa [ast.Expr.typ] using hti
      · simp only [h1, if_true, M.bind_apply] at h
        rcases ha : check_expr ctx g a false s with ⟨a1, s1⟩ | ⟨f1, s1⟩
        case err => simp only [ha] at h; exact Res.noConfusion h
        simp only [ha] at h
        cases htl : truthy a1.lvalue <;>
          simp only [htl, Bool.false_eq_true, not_false_iff, not_true, if_true,
            if_false, M.throw, M.bind_apply] at h
        · exact Res.noConfusion h
        · rcases hta : a1.typ with _ | ta
          · simp only [hta, ast.Expr.getTypM, M.throw] at h
            exact Res.noConfusion h
          · simp only [hta, ast.Expr.getTypM, M.pure_def, Res.ok.injEq] at h
            rw [← h.1]; exact ⟨rfl, rfl⟩
    · -- check_dereference
      intro ctx e s e' s' h
      simp only [check_dereference] at h
      cases hk : e.kind <;> simp only [hk, M.throw, M.bind_apply] at h
      all_goals try exact Res.noConfusion h
      rename_i ptr
      rcases hp : check_expr ctx g ptr true s with ⟨p1, s1⟩ | ⟨f1, s1⟩
      case err => simp only [hp] at h; exact Res.noConfusion h
      simp only [hp, ast.Expr.getTypM, M.bind_apply] at h
      rcases htp : p1.typ with _ | tp
      · simp only [htp, M.throw] at h; exact Res.noConfusion h
      simp only [htp, M.pure_def, Ctx.get_type] at h
      cases tp <;> try simp only [M.throw] at h
      all_goals try exact Res.noConfusion h
      rename_i ptype
      simp only [M.pure_def, Res.ok.injEq] at h
      rw [← h.1]; exact ⟨rfl, rfl⟩
    · -- check_member_expr
      intro ctx e s e' s' h
      simp only [check_member_expr] at h
      cases hk : e.kind <;> simp only [hk, M.throw] at h
      all_goals try exact Res.noConfusion h
      rename_i base field
      simp only [M.bind_apply] at h
      rcases hmr : is_module_ref ctx g e s with ⟨mb, smr⟩ | ⟨fmr, smr⟩
      case err => simp only [hmr] at h; exact Res.noConfusion h
      simp only [hmr] at h
      cases mb with
      | true =>
        simp only [eq_self_iff_true, if_true, M.bind_apply] at h
        rcases hrs : resolve_symbol ctx e smr with ⟨sym, srs⟩ | ⟨frs, srs⟩
        case err => simp only [hrs] at h; exact Res.noConfusion h
        simp only [hrs] at h
        cases sym <;> try simp only [M.throw] at h
        all_goals try exact Res.noConfusion h
        rename_i t
        simp only [M.pure_def, Res.ok.injEq] at h
        rw [← h.1]; exact ⟨rfl, rfl⟩
      | false =>
        simp only [Bool.false_eq_true, if_false, M.bind_apply] at h
        rcases hb : check_expr ctx g base false smr with ⟨b1, s1⟩ | ⟨f1, s1⟩
        case err => simp only [hb] at h; exact Res.noConfusion h
        simp only [hb, ast.Expr.getTypM, M.bind_apply] at h
        rcases htb : b1.typ with _ | tb
        · simp only [htb, M.throw] at h; exact Res.noConfusion h
        simp only [htb, M.pure_def, Ctx.get_type, M.bind_apply] at h
        cases tb <;> try simp only [M.throw] at h
        all_goals try exact Res.noConfusion h
        rename_i flds
        simp only [check_type, ast.Typ.well_formed, if_true, M.bind_apply,
          M.pure_def] at h
        rcases hlk : flds.lookup field with _ | ft
        · simp only [hlk, M.throw] at h; exact Res.noConfusion h
        simp only [hlk] at h
        cases htl : truthy b1.lvalue
        · simp only [htl, Bool.false_eq_true, if_false, M.throw] at h
          exact Res.noConfusion h
        · simp only [htl, if_true, M.pure_def, Res.ok.injEq] at h
          rw [← h.1]
          refine ⟨rfl, ?_⟩
          have hbl := (truthy_eq_true_iff b1.lvalue).mp htl
          rw [hbl]
          rfl
    · -- check_index_expr
      intro ctx e s e' s' h
      simp only [check_index_expr] at h
      cases hk : e.kind <;> simp only [hk, M.throw] at h
      all_goals try exact Res.noConfusion h
      rename_i base i
      simp only [M.bind_apply] at h
      rcases hb : check_expr ctx g base false s with ⟨b1, s1⟩ | ⟨f1, s1⟩
      case err => simp only [hb] at h; exact Res.noConfusion h
      simp only [hb, M.bind_apply] at h
      rcases hi2 : check_expr ctx g i true s1 with ⟨i1, s2⟩ | ⟨f2, s2⟩
      case err => simp only [hi2] at h; exact Res.noConfusion h
      simp only [hi2, ast.Expr.getTypM, M.bind_apply] at h
      rcases htb : b1.typ with _ | tb
      · simp only [htb, M.throw] at h; exact Res.noConfusion h
      simp only [htb, M.pure_def, Ctx.get_type, M.bind_apply] at h
      cases tb <;> try simp only [M.throw] at h
      all_goals try exact Res.noConfusion h
      rename_i elemT
      simp only [M.bind_apply] at h
      rcases hdc : do_coerce ctx g i1 (.baseType "int") s2 with ⟨i2, s3⟩ | ⟨f3, s3⟩
      case err => simp only [hdc] at h; exact Res.noConfusion h
      simp only [hdc] at h
      cases htl : truthy b1.lvalue
      · simp only [htl, Bool.false_eq_true, if_false, M.throw] at h
        exact Res.noConfusion h
      · simp only [htl, if_true, M.pure_def, Res.ok.injEq] at h
        rw [← h.1]; exact ⟨rfl, rfl⟩
    · -- check_type_cast
      intro ctx e s e' s' h
      simp only [check_type_cast] at h
      cases hk : e.kind <;> simp only [hk, M.throw, M.bind_apply] at h
      all_goals try exact Res.noConfusion h
      rename_i to_type a
      rcases ha : check_expr ctx g a true s with ⟨a1, s1⟩ | ⟨f1, s1⟩
      case err => simp only [ha] at h; exact Res.noConfusion h
      simp only [ha, M.pure_def, Res.ok.injEq] at h
      rw [← h.1]; exact ⟨rfl, rfl⟩
    · -- check_function_call
      intro ctx e s e' s' h
      simp only [check_function_call] at h
      cases hk : e.kind <;> simp only [hk, M.throw, M.bind_apply] at h
      all_goals try exact Res.noConfusion h
      rename_i proc args
      rcases hrs : resolve_symbol ctx proc s with ⟨sym, s1⟩ | ⟨f1, s1⟩
      case err => simp only [hrs] at h; exact Res.noConfusion h
      simp only [hrs] at h
      cases sym <;> try simp only [M.throw] at h
      all_goals try exact Res.noConfusion h
      rename_i sig
      cases har : (args.length != sig.parametertypes.length) <;>
        simp only [har, Bool.false_eq_true, if_false, if_true, M.throw,
          M.bind_apply] at h
      · rcases hca : check_call_args ctx g args sig.parametertypes s1
            with ⟨nargs, s2⟩ | ⟨f2, s2⟩
        case err => simp only [hca] at h; exact Res.noConfusion h
        simp only [hca] at h
        cases hsi : ctx.is_simple_type sig.returntype <;>
          simp only [hsi, Bool.false_eq_true, not_false_iff, not_true, if_true,
            if_false, M.throw, M.pure_def, Res.ok.injEq] at h
        · exact Res.noConfusion h
        · rw [← h.1]; exact ⟨rfl, rfl⟩
      · exact Res.noConfusion h

/-- Claim C9 amended: after this pass visits an expression successfully
(through `check_expr`), its `typ` and `is_lvalue` fields are both set.  (The
original claim's "never revisited or overwritten except by explicit
coercion wrapping" is refuted by the counterexample: `do_coerce` re-checks
the node even on its no-cast path and can overwrite `is_lvalue`.) -/
theorem c9_fields_set_after_visit (ctx : Ctx) (fuel : Nat) (e : ast.Expr)
    (rv : Bool) (s : St) (e' : ast.Expr) (s' : St)
    (h : check_expr ctx fuel e rv s = .ok e' s') :
    e'.typ.isSome = true ∧ e'.lvalue.isSome = true :=
  (fields_set_aux fuel).1 ctx e rv s e' s' h

/-- Witness for C9 (amended): the checked identifier `x` carries both
fields. -/
theorem c9_fields_set_after_visit_witness :
    (ast.Expr.mk (.identifier "x") 1 (some intT) (some false)).typ.isSome = true
    ∧ (ast.Expr.mk (.identifier "x") 1 (some intT) (some false)).lvalue.isSome = true :=
  c9_fields_set_after_visit ctx0 4 (.mk (.identifier "x") 1 none none) true st0
    (.mk (.identifier "x") 1 (some intT) (some false)) st0 rfl

end TypeChecker
